import Mathlib

/-! libfsxfs: the directory functions and the pyfsxfs volume wrapper.

A shallow embedding of `libfsxfs/libfsxfs_directory.c` and of
`pyfsxfs/pyfsxfs_volume.c`.  Pointers are `Option` values (`none` is NULL); out-parameters are
returned next to the return code; the functions the two files call but which live in other
files (the libfsxfs volume functions, the decoders, libcdata, libbfio, CPython) are taken as
parameters, so every theorem holds for whatever those functions return.
-/

set_option autoImplicit false

/-! ## Constants of headers that are not among the sources -/

/-- Modelled from the spec: `LIBFSXFS_ACCESS_FLAG_READ` of `libfsxfs/definitions.h`, which is not
among the sources. -/
def LIBFSXFS_ACCESS_FLAG_READ : Nat := 0x01

/-- Modelled from the spec: `LIBFSXFS_ACCESS_FLAG_WRITE` of `libfsxfs/definitions.h`, which is not
among the sources. -/
def LIBFSXFS_ACCESS_FLAG_WRITE : Nat := 0x02

/-- Modelled from the spec: `LIBFSXFS_OPEN_READ` of `libfsxfs/definitions.h` (read-only access),
which is not among the sources. -/
def LIBFSXFS_OPEN_READ : Nat := LIBFSXFS_ACCESS_FLAG_READ

/-- Modelled from the spec: `LIBFSXFS_FILE_TYPE_DIRECTORY` of `libfsxfs_definitions.h`, the value
of the top four bits of `file_mode` that selects a directory; the header is not among the
sources. -/
def LIBFSXFS_FILE_TYPE_DIRECTORY : Nat := 0x4000

/-- Modelled from the spec: `LIBFSXFS_FORK_TYPE_INLINE_DATA` of `libfsxfs_definitions.h`, the
data-fork format `local`; the header is not among the sources. -/
def LIBFSXFS_FORK_TYPE_INLINE_DATA : Nat := 1

/-- Modelled from the spec: `LIBFSXFS_FORK_TYPE_EXTENTS` of `libfsxfs_definitions.h`, the data-fork
format `extents`; the header is not among the sources. -/
def LIBFSXFS_FORK_TYPE_EXTENTS : Nat := 2

/-- Modelled from the spec: `LIBFSXFS_FORK_TYPE_BTREE` of `libfsxfs_definitions.h`, the data-fork
format `btree`; the header is not among the sources. -/
def LIBFSXFS_FORK_TYPE_BTREE : Nat := 3

/-- The value `LIBUNA_COMPARE_EQUAL` of libuna, the result of a comparison of equal strings. -/
def LIBUNA_COMPARE_EQUAL : Int := 1

/-! ## pyfsxfs: the objects -/

/-- The Python exception left set when a wrapper function returns NULL. -/
inductive PyExc where
  | ValueError
  | TypeError
  | IOError
  | MemoryError
  | RuntimeError
  /-- Whatever `PyArg_ParseTupleAndKeywords` set when it rejected the arguments. -/
  | ArgumentError
  deriving DecidableEq, Repr

/-- A `libfsxfs_file_entry_t *` the library handed out. -/
structure libfsxfs_file_entry_t where
  inode_number : Nat
  deriving DecidableEq, Repr

/-- A `libbfio_handle_t *`: the byte source of a volume. -/
structure libbfio_handle_t where
  id : Nat
  deriving DecidableEq, Repr

/-- The fields of `pyfsxfs_volume_t`. -/
structure pyfsxfs_volume_t where
  /-- The `libfsxfs_volume_t *`. -/
  volume : Option Nat
  file_io_handle : Option libbfio_handle_t
  deriving DecidableEq, Repr

/-- The fields of `pyfsxfs_file_entry_t`: the library entry and the parent object. -/
structure pyfsxfs_file_entry_t where
  file_entry : libfsxfs_file_entry_t
  parent_object : pyfsxfs_volume_t
  deriving DecidableEq, Repr

/-- The Python objects the volume methods return. -/
inductive PyObject where
  | None
  | file_entry (object : pyfsxfs_file_entry_t)
  | unicode (characters : List Nat)
  deriving DecidableEq, Repr

/-- What a wrapper function hands back to the interpreter: an object, or NULL with an exception
set. -/
inductive PyReturn where
  | object (value : PyObject)
  | raised (exception : PyExc)
  deriving DecidableEq, Repr

/-- The calls by which a wrapper function opens, closes or frees a byte source, in order. -/
inductive LibraryCall where
  | libfsxfs_volume_open (filename : List Nat) (access_flags : Nat)
  | libfsxfs_volume_open_wide (filename : List Nat) (access_flags : Nat)
  | libfsxfs_volume_open_file_io_handle (file_io_handle : Option libbfio_handle_t)
      (access_flags : Nat)
  | pyfsxfs_file_object_create
  | libfsxfs_volume_close
  | libbfio_handle_free (file_io_handle : libbfio_handle_t)
  deriving DecidableEq, Repr

/-- The access flags of a call that asks the library to open a volume. -/
def LibraryCall.access_flags? : LibraryCall → Option Nat
  | .libfsxfs_volume_open _ f => some f
  | .libfsxfs_volume_open_wide _ f => some f
  | .libfsxfs_volume_open_file_io_handle _ f => some f
  | _ => none

/-- The preprocessor conditions `pyfsxfs_volume_open` is compiled under. -/
structure BuildConfig where
  HAVE_WIDE_SYSTEM_CHARACTER : Bool
  deriving DecidableEq, Repr

/-- The object passed as `filename` or `file_object`, seen through the CPython calls the
wrapper makes on it. -/
structure PyArgument where
  /-- `PyObject_IsInstance( string_object, &PyUnicode_Type )`. -/
  is_instance_unicode : Int
  /-- `PyUnicode_AsWideCharString` or `PyUnicode_AsUnicode`. -/
  as_wide_string : List Nat
  /-- `PyUnicode_AsUTF8String`, `none` when it returns NULL. -/
  as_utf8_string : Option (List Nat)
  /-- `PyObject_IsInstance( string_object, &PyBytes_Type )`. -/
  is_instance_bytes : Int
  /-- `PyBytes_AsString`. -/
  bytes_as_string : List Nat
  /-- `PyObject_HasAttrString( file_object, "read" )`. -/
  has_attr_read : Int
  /-- `PyObject_HasAttrString( file_object, "seek" )`. -/
  has_attr_seek : Int

/-- The functions of libfsxfs, libbfio and pyfsxfs that `pyfsxfs_volume.c` calls and that are
defined in other files: each field is what the call returns (with the value it stores through
its out-parameter, where it has one). -/
structure Library where
  libfsxfs_volume_open : Option Nat → List Nat → Nat → Int
  libfsxfs_volume_open_wide : Option Nat → List Nat → Nat → Int
  libfsxfs_volume_open_file_io_handle : Option Nat → Option libbfio_handle_t → Nat → Int
  /-- The return code of `pyfsxfs_file_object_initialize` and the handle it stores. -/
  pyfsxfs_file_object_create : Int × Option libbfio_handle_t
  libfsxfs_volume_close : Option Nat → Int
  libbfio_handle_free : libbfio_handle_t → Int
  libfsxfs_volume_get_file_entry_by_inode : Option Nat → Nat → Int × Option libfsxfs_file_entry_t
  libfsxfs_volume_get_root_directory : Option Nat → Int × Option libfsxfs_file_entry_t
  libfsxfs_volume_get_file_entry_by_utf8_path :
    Option Nat → List Nat → Nat → Int × Option libfsxfs_file_entry_t
  /-- Whether `pyfsxfs_file_entry_new` can allocate the Python object. -/
  file_entry_object_available : Bool

/-- Modelled from the spec: `pyfsxfs_file_entry_new` of `pyfsxfs_file_entry.c`, which is not
among the sources.  It makes the Python file entry object that holds the library entry and a
reference to the parent volume object, and returns NULL when the entry is NULL or the object
cannot be allocated. -/
def pyfsxfs_file_entry_new (lib : Library) (file_entry : Option libfsxfs_file_entry_t)
    (parent_object : pyfsxfs_volume_t) : Option pyfsxfs_file_entry_t :=
  match file_entry with
  | none => none
  | some e =>
    if lib.file_entry_object_available then some { file_entry := e, parent_object := parent_object }
    else none

/-- The result of a wrapper call: what it returns, the volume object afterwards, the calls it
made to open, close or free a byte source, and the library file entries it freed on its error
path. -/
structure PyOutcome where
  result : PyReturn
  pyfsxfs_volume : Option pyfsxfs_volume_t
  calls : List LibraryCall
  freed_file_entries : List libfsxfs_file_entry_t
  deriving DecidableEq, Repr

/-- The test `( mode != NULL ) && ( mode[ 0 ] != 'r' )`; `mode[ 0 ]` of the empty string is the
terminating NUL. -/
def mode_is_unsupported (mode : Option (List Char)) : Bool :=
  match mode with
  | none => false
  | some m => decide (m.headD (Char.ofNat 0) ≠ 'r')

/-! ## pyfsxfs: the volume methods -/

/-- The body of `pyfsxfs_volume_init`: both pointers are cleared before the library volume is
created.  `volume_initialize_result` is what `libfsxfs_volume_initialize` returns together with
the volume it stores. -/
def pyfsxfs_volume_init (volume_initialize_result : Int × Option Nat) :
    Int × pyfsxfs_volume_t :=
  if volume_initialize_result.1 ≠ 1 then
    (-1, { volume := volume_initialize_result.2, file_io_handle := none })
  else
    (0, { volume := volume_initialize_result.2, file_io_handle := none })

/-- The tail of `pyfsxfs_volume_open` shared by its three library calls: `result != 1` raises
IOError, otherwise None is returned. -/
def pyfsxfs_volume_open_finish (v : pyfsxfs_volume_t) (call : LibraryCall) (result : Int) :
    PyOutcome :=
  if result ≠ 1 then
    { result := .raised .IOError, pyfsxfs_volume := some v, calls := [call],
      freed_file_entries := [] }
  else
    { result := .object .None, pyfsxfs_volume := some v, calls := [call],
      freed_file_entries := [] }

/-- The function `pyfsxfs_volume_open`.  `arguments` is what `PyArg_ParseTupleAndKeywords` with
format `"O|s"` stored (`none` when it returned 0); the mode is `none` when it was omitted. -/
def pyfsxfs_volume_open (cfg : BuildConfig) (lib : Library)
    (pyfsxfs_volume : Option pyfsxfs_volume_t)
    (arguments : Option (PyArgument × Option (List Char))) : PyOutcome :=
  match pyfsxfs_volume with
  | none =>
    { result := .raised .ValueError, pyfsxfs_volume := none, calls := [],
      freed_file_entries := [] }
  | some v =>
    match arguments with
    | none =>
      { result := .raised .ArgumentError, pyfsxfs_volume := some v, calls := [],
        freed_file_entries := [] }
    | some (string_object, mode) =>
      if mode_is_unsupported mode then
        { result := .raised .ValueError, pyfsxfs_volume := some v, calls := [],
          freed_file_entries := [] }
      else if string_object.is_instance_unicode = -1 then
        { result := .raised .RuntimeError, pyfsxfs_volume := some v, calls := [],
          freed_file_entries := [] }
      else if string_object.is_instance_unicode ≠ 0 then
        if cfg.HAVE_WIDE_SYSTEM_CHARACTER then
          pyfsxfs_volume_open_finish v
            (.libfsxfs_volume_open_wide string_object.as_wide_string LIBFSXFS_OPEN_READ)
            (lib.libfsxfs_volume_open_wide v.volume string_object.as_wide_string
              LIBFSXFS_OPEN_READ)
        else
          match string_object.as_utf8_string with
          | none =>
            { result := .raised .RuntimeError, pyfsxfs_volume := some v, calls := [],
              freed_file_entries := [] }
          | some filename_narrow =>
            pyfsxfs_volume_open_finish v
              (.libfsxfs_volume_open filename_narrow LIBFSXFS_OPEN_READ)
              (lib.libfsxfs_volume_open v.volume filename_narrow LIBFSXFS_OPEN_READ)
      else if string_object.is_instance_bytes = -1 then
        { result := .raised .RuntimeError, pyfsxfs_volume := some v, calls := [],
          freed_file_entries := [] }
      else if string_object.is_instance_bytes ≠ 0 then
        pyfsxfs_volume_open_finish v
          (.libfsxfs_volume_open string_object.bytes_as_string LIBFSXFS_OPEN_READ)
          (lib.libfsxfs_volume_open v.volume string_object.bytes_as_string LIBFSXFS_OPEN_READ)
      else
        { result := .raised .TypeError, pyfsxfs_volume := some v, calls := [],
          freed_file_entries := [] }

/-- The label `on_error` of `pyfsxfs_volume_open_file_object`: a handle that is set is freed,
which leaves the pointer NULL (libbfio clears it), and NULL is returned. -/
def pyfsxfs_volume_open_file_object_on_error (exception : PyExc) (v : pyfsxfs_volume_t)
    (calls : List LibraryCall) : PyOutcome :=
  match v.file_io_handle with
  | some h =>
    { result := .raised exception, pyfsxfs_volume := some { v with file_io_handle := none },
      calls := calls ++ [.libbfio_handle_free h], freed_file_entries := [] }
  | none =>
    { result := .raised exception, pyfsxfs_volume := some v, calls := calls,
      freed_file_entries := [] }

/-- The function `pyfsxfs_volume_open_file_object`. -/
def pyfsxfs_volume_open_file_object (lib : Library)
    (pyfsxfs_volume : Option pyfsxfs_volume_t)
    (arguments : Option (PyArgument × Option (List Char))) : PyOutcome :=
  match pyfsxfs_volume with
  | none =>
    { result := .raised .ValueError, pyfsxfs_volume := none, calls := [],
      freed_file_entries := [] }
  | some v =>
    match arguments with
    | none =>
      { result := .raised .ArgumentError, pyfsxfs_volume := some v, calls := [],
        freed_file_entries := [] }
    | some (file_object, mode) =>
      if mode_is_unsupported mode then
        { result := .raised .ValueError, pyfsxfs_volume := some v, calls := [],
          freed_file_entries := [] }
      else if file_object.has_attr_read ≠ 1 then
        { result := .raised .TypeError, pyfsxfs_volume := some v, calls := [],
          freed_file_entries := [] }
      else if file_object.has_attr_seek ≠ 1 then
        { result := .raised .TypeError, pyfsxfs_volume := some v, calls := [],
          freed_file_entries := [] }
      else if v.file_io_handle.isSome then
        { result := .raised .IOError, pyfsxfs_volume := some v, calls := [],
          freed_file_entries := [] }
      else
        let v1 : pyfsxfs_volume_t := { v with file_io_handle := lib.pyfsxfs_file_object_create.2 }
        if lib.pyfsxfs_file_object_create.1 ≠ 1 then
          pyfsxfs_volume_open_file_object_on_error .MemoryError v1 [.pyfsxfs_file_object_create]
        else
          let open_call : LibraryCall :=
            .libfsxfs_volume_open_file_io_handle v1.file_io_handle LIBFSXFS_OPEN_READ
          if lib.libfsxfs_volume_open_file_io_handle v1.volume v1.file_io_handle
              LIBFSXFS_OPEN_READ ≠ 1 then
            pyfsxfs_volume_open_file_object_on_error .IOError v1
              [.pyfsxfs_file_object_create, open_call]
          else
            { result := .object .None, pyfsxfs_volume := some v1,
              calls := [.pyfsxfs_file_object_create, open_call], freed_file_entries := [] }

/-- The function `pyfsxfs_volume_close`.  `libbfio_handle_free` leaves the pointer it is given
NULL. -/
def pyfsxfs_volume_close (lib : Library) (pyfsxfs_volume : Option pyfsxfs_volume_t) :
    PyOutcome :=
  match pyfsxfs_volume with
  | none =>
    { result := .raised .ValueError, pyfsxfs_volume := none, calls := [],
      freed_file_entries := [] }
  | some v =>
    if lib.libfsxfs_volume_close v.volume ≠ 0 then
      { result := .raised .IOError, pyfsxfs_volume := some v,
        calls := [.libfsxfs_volume_close], freed_file_entries := [] }
    else
      match v.file_io_handle with
      | some h =>
        if lib.libbfio_handle_free h ≠ 1 then
          { result := .raised .MemoryError,
            pyfsxfs_volume := some { v with file_io_handle := none },
            calls := [.libfsxfs_volume_close, .libbfio_handle_free h],
            freed_file_entries := [] }
        else
          { result := .object .None,
            pyfsxfs_volume := some { v with file_io_handle := none },
            calls := [.libfsxfs_volume_close, .libbfio_handle_free h],
            freed_file_entries := [] }
      | none =>
        { result := .object .None, pyfsxfs_volume := some v,
          calls := [.libfsxfs_volume_close], freed_file_entries := [] }

/-- The label `on_error` of the three lookups: a library entry that is set is freed and NULL is
returned. -/
def pyfsxfs_volume_lookup_on_error (exception : PyExc) (v : pyfsxfs_volume_t)
    (file_entry : Option libfsxfs_file_entry_t) : PyOutcome :=
  { result := .raised exception, pyfsxfs_volume := some v, calls := [],
    freed_file_entries := file_entry.toList }

/-- The tail shared by the three lookups: wrap the library entry with `pyfsxfs_file_entry_new`,
raise MemoryError when that returns NULL. -/
def pyfsxfs_volume_lookup_wrap (lib : Library) (v : pyfsxfs_volume_t)
    (file_entry : Option libfsxfs_file_entry_t) : PyOutcome :=
  match pyfsxfs_file_entry_new lib file_entry v with
  | none => pyfsxfs_volume_lookup_on_error .MemoryError v file_entry
  | some file_entry_object =>
    { result := .object (.file_entry file_entry_object), pyfsxfs_volume := some v, calls := [],
      freed_file_entries := [] }

/-- The function `pyfsxfs_volume_get_file_entry_by_inode`.  `arguments` is the
`unsigned long long` that `PyArg_ParseTupleAndKeywords` with format `"K"` stored.  The first
test is `result != 1`, as in the source, so the branch `result == 0` after it is never taken. -/
def pyfsxfs_volume_get_file_entry_by_inode (lib : Library)
    (pyfsxfs_volume : Option pyfsxfs_volume_t) (arguments : Option Nat) : PyOutcome :=
  match pyfsxfs_volume with
  | none =>
    { result := .raised .ValueError, pyfsxfs_volume := none, calls := [],
      freed_file_entries := [] }
  | some v =>
    match arguments with
    | none =>
      { result := .raised .ArgumentError, pyfsxfs_volume := some v, calls := [],
        freed_file_entries := [] }
    | some inode_number =>
      let r := lib.libfsxfs_volume_get_file_entry_by_inode v.volume (inode_number % 2 ^ 64)
      if r.1 ≠ 1 then
        pyfsxfs_volume_lookup_on_error .IOError v r.2
      else if r.1 = 0 then
        { result := .object .None, pyfsxfs_volume := some v, calls := [],
          freed_file_entries := [] }
      else
        pyfsxfs_volume_lookup_wrap lib v r.2

/-- The function `pyfsxfs_volume_get_root_directory`. -/
def pyfsxfs_volume_get_root_directory (lib : Library)
    (pyfsxfs_volume : Option pyfsxfs_volume_t) : PyOutcome :=
  match pyfsxfs_volume with
  | none =>
    { result := .raised .ValueError, pyfsxfs_volume := none, calls := [],
      freed_file_entries := [] }
  | some v =>
    let r := lib.libfsxfs_volume_get_root_directory v.volume
    if r.1 = -1 then
      pyfsxfs_volume_lookup_on_error .IOError v r.2
    else if r.1 = 0 then
      { result := .object .None, pyfsxfs_volume := some v, calls := [],
        freed_file_entries := [] }
    else
      pyfsxfs_volume_lookup_wrap lib v r.2

/-- The function `pyfsxfs_volume_get_file_entry_by_path`.  `arguments` is the NUL-terminated
string that `PyArg_ParseTupleAndKeywords` with format `"s"` stored, without its terminator, so
`narrow_string_length` is the length of the list. -/
def pyfsxfs_volume_get_file_entry_by_path (lib : Library)
    (pyfsxfs_volume : Option pyfsxfs_volume_t) (arguments : Option (List Nat)) : PyOutcome :=
  match pyfsxfs_volume with
  | none =>
    { result := .raised .ValueError, pyfsxfs_volume := none, calls := [],
      freed_file_entries := [] }
  | some v =>
    match arguments with
    | none =>
      { result := .raised .ArgumentError, pyfsxfs_volume := some v, calls := [],
        freed_file_entries := [] }
    | some utf8_path =>
      let r := lib.libfsxfs_volume_get_file_entry_by_utf8_path v.volume utf8_path
        utf8_path.length
      if r.1 = -1 then
        pyfsxfs_volume_lookup_on_error .IOError v r.2
      else if r.1 = 0 then
        { result := .object .None, pyfsxfs_volume := some v, calls := [],
          freed_file_entries := [] }
      else
        pyfsxfs_volume_lookup_wrap lib v r.2

/-! ## pyfsxfs: a volume object and the file entries obtained from it -/

/-- A volume object in use: its fields, the file entry objects its lookups have returned and
that the caller has not dropped yet, and the byte sources `libbfio_handle_free` was called
on. -/
structure Session where
  pyfsxfs_volume : pyfsxfs_volume_t
  open_file_entries : List pyfsxfs_file_entry_t
  released_handles : List libbfio_handle_t
  deriving DecidableEq, Repr

/-- What a caller can do with a volume object. -/
inductive SessionOp where
  | open (cfg : BuildConfig) (filename : PyArgument) (mode : Option (List Char))
  | open_file_object (file_object : PyArgument) (mode : Option (List Char))
  | get_file_entry_by_inode (inode_number : Nat)
  | get_root_directory
  | get_file_entry_by_path (utf8_path : List Nat)
  | drop_file_entry (index : Nat)
  | close

/-- The byte sources freed by a list of calls. -/
def released_by (calls : List LibraryCall) : List libbfio_handle_t :=
  calls.filterMap fun c =>
    match c with
    | .libbfio_handle_free h => some h
    | _ => none

/-- The file entry object a call returned, if it returned one. -/
def returned_file_entry (r : PyReturn) : List pyfsxfs_file_entry_t :=
  match r with
  | .object (.file_entry o) => [o]
  | _ => []

/-- The session after a wrapper call with the given outcome. -/
def Session.after (s : Session) (out : PyOutcome) : Session :=
  { pyfsxfs_volume := out.pyfsxfs_volume.getD s.pyfsxfs_volume,
    open_file_entries := s.open_file_entries ++ returned_file_entry out.result,
    released_handles := s.released_handles ++ released_by out.calls }

/-- One operation on a volume object, the library behaving as `lib` during it. -/
def Session.step (lib : Library) (s : Session) : SessionOp → Session × Option PyReturn
  | .open cfg filename mode =>
    let out := pyfsxfs_volume_open cfg lib (some s.pyfsxfs_volume) (some (filename, mode))
    (s.after out, some out.result)
  | .open_file_object file_object mode =>
    let out := pyfsxfs_volume_open_file_object lib (some s.pyfsxfs_volume)
      (some (file_object, mode))
    (s.after out, some out.result)
  | .get_file_entry_by_inode inode_number =>
    let out := pyfsxfs_volume_get_file_entry_by_inode lib (some s.pyfsxfs_volume)
      (some inode_number)
    (s.after out, some out.result)
  | .get_root_directory =>
    let out := pyfsxfs_volume_get_root_directory lib (some s.pyfsxfs_volume)
    (s.after out, some out.result)
  | .get_file_entry_by_path utf8_path =>
    let out := pyfsxfs_volume_get_file_entry_by_path lib (some s.pyfsxfs_volume)
      (some utf8_path)
    (s.after out, some out.result)
  | .drop_file_entry index =>
    ({ s with open_file_entries := s.open_file_entries.eraseIdx index }, none)
  | .close =>
    let out := pyfsxfs_volume_close lib (some s.pyfsxfs_volume)
    (s.after out, some out.result)

/-- A sequence of operations, each with the library behaviour during it. -/
def Session.run (s : Session) : List (Library × SessionOp) → Session
  | [] => s
  | (lib, op) :: rest => Session.run (s.step lib op).1 rest

/-- The session right after `pyfsxfs_volume_init` succeeded with the library volume `volume`. -/
def Session.init (volume : Nat) : Session :=
  { pyfsxfs_volume := (pyfsxfs_volume_init (1, some volume)).2,
    open_file_entries := [],
    released_handles := [] }

/-- The states a volume object can be in: those some sequence of operations leads to. -/
def Session.Reachable (s : Session) : Prop :=
  ∃ volume ops, Session.run (Session.init volume) ops = s

/-! ## libfsxfs: the directory -/

/-- A decoded directory entry (`libfsxfs_directory_entry_t`): the child inode number and the
name bytes. -/
structure libfsxfs_directory_entry_t where
  inode_number : Nat
  name : List Nat
  deriving DecidableEq, Repr

/-- The fields of `libfsxfs_directory_t`: the array of entries, in the order the decoder
appended them. -/
structure libfsxfs_directory_t where
  entries_array : List libfsxfs_directory_entry_t
  deriving DecidableEq, Repr

/-- The two libcdata calls the directory functions read the array with.  `none` stands for a
return value other than 1; `some x` for the return value 1 with `x` stored through the
out-parameter. -/
structure libcdata_array_calls where
  get_number_of_entries : List libfsxfs_directory_entry_t → Option Int
  get_entry_by_index : List libfsxfs_directory_entry_t → Int → Option libfsxfs_directory_entry_t

/-- The behaviour of libcdata on a well-formed array: the count is the number of entries, and an
entry is returned for the indexes from 0 up to the count only. -/
def libcdata : libcdata_array_calls where
  get_number_of_entries := fun entries => some (entries.length : Int)
  get_entry_by_index := fun entries entry_index =>
    if entry_index < 0 then none else entries.get? entry_index.toNat

/-- The call `libcdata_array_empty` with `libfsxfs_directory_entry_free`: every entry is freed
and the array has no entries afterwards. -/
def libcdata_array_empty (_entries : List libfsxfs_directory_entry_t) :
    List libfsxfs_directory_entry_t :=
  []

/-- The fields of `libfsxfs_io_handle_t` the directory reader is given. -/
structure libfsxfs_io_handle_t where
  block_size : Nat
  /-- Modelled from the spec: the abort flag of the volume, which reaches the decoders through
  the IO handle; `libfsxfs_io_handle.h` is not among the sources. -/
  abort : Bool
  deriving DecidableEq, Repr

/-- Modelled from the spec: an extent record of a data fork (`libfsxfs_extent.h` is not among
the sources): start logical block, start physical block and length in blocks. -/
structure libfsxfs_extent_t where
  logical_block_number : Nat
  physical_block_number : Nat
  number_of_blocks : Nat
  deriving DecidableEq, Repr

/-- The fields of `libfsxfs_inode_t` the directory reader uses, and the extent list of the data
fork. -/
structure libfsxfs_inode_t where
  file_mode : Nat
  fork_type : Nat
  size : Nat
  inline_data : List Nat
  /-- Modelled from the spec: the extent list of an `extents` data fork; `libfsxfs_inode.h` is
  not among the sources. -/
  data_extents : List libfsxfs_extent_t
  deriving DecidableEq, Repr

/-- The decoder calls `libfsxfs_directory_read_file_io_handle` makes, with their arguments. -/
inductive DecoderCall where
  | directory_table_create
  | directory_table_read_data (data : List Nat) (data_size : Nat)
  | block_directory_create (block_size : Nat)
  | block_directory_read_file_io_handle (file_io_handle : Option libbfio_handle_t)
      (file_offset : Int)
  deriving DecidableEq, Repr

/-- The read of the byte source a decoder call makes: only the block directory is handed the
file IO handle. -/
def DecoderCall.read? : DecoderCall → Option (Option libbfio_handle_t × Int)
  | .block_directory_read_file_io_handle file_io_handle file_offset =>
    some (file_io_handle, file_offset)
  | _ => none

/-- The functions of `libfsxfs_directory_table.c` and `libfsxfs_block_directory.c`, which are
not among the sources.  A create or free call is its return value; a read call is given the
entries array and yields its return value and the array as it leaves it. -/
structure Decoders where
  directory_table_create : Int
  directory_table_read_data :
    libfsxfs_io_handle_t → List Nat → Nat → List libfsxfs_directory_entry_t →
      Int × List libfsxfs_directory_entry_t
  directory_table_release : Int
  block_directory_create : Nat → Int
  block_directory_read_file_io_handle :
    libfsxfs_io_handle_t → Option libbfio_handle_t → Int → List libfsxfs_directory_entry_t →
      Int × List libfsxfs_directory_entry_t
  block_directory_release : Int

/-- What `libfsxfs_directory_read_file_io_handle` leaves behind: its return value, the
directory and the decoder calls it made. -/
structure DirectoryRead where
  result : Int
  directory : Option libfsxfs_directory_t
  calls : List DecoderCall
  deriving DecidableEq, Repr

/-- The label `on_error` of `libfsxfs_directory_read_file_io_handle`: the temporaries are freed,
the entries array is emptied and -1 is returned. -/
def libfsxfs_directory_read_file_io_handle_on_error (directory : libfsxfs_directory_t)
    (calls : List DecoderCall) : DirectoryRead :=
  { result := -1,
    directory := some { directory with
      entries_array := libcdata_array_empty directory.entries_array },
    calls := calls }

/-- The function `libfsxfs_directory_read_file_io_handle`. -/
def libfsxfs_directory_read_file_io_handle (d : Decoders)
    (directory : Option libfsxfs_directory_t) (io_handle : Option libfsxfs_io_handle_t)
    (file_io_handle : Option libbfio_handle_t) (inode : Option libfsxfs_inode_t) :
    DirectoryRead :=
  match directory with
  | none => { result := -1, directory := none, calls := [] }
  | some directory =>
    match io_handle with
    | none => { result := -1, directory := some directory, calls := [] }
    | some io_handle =>
      match inode with
      | none => { result := -1, directory := some directory, calls := [] }
      | some inode =>
        if inode.file_mode &&& 0xf000 = LIBFSXFS_FILE_TYPE_DIRECTORY then
          if inode.fork_type ≠ LIBFSXFS_FORK_TYPE_INLINE_DATA
              ∧ inode.fork_type ≠ LIBFSXFS_FORK_TYPE_EXTENTS then
            libfsxfs_directory_read_file_io_handle_on_error directory []
          else if inode.fork_type = LIBFSXFS_FORK_TYPE_INLINE_DATA then
            if d.directory_table_create ≠ 1 then
              libfsxfs_directory_read_file_io_handle_on_error directory
                [.directory_table_create]
            else
              let r := d.directory_table_read_data io_handle inode.inline_data inode.size
                directory.entries_array
              let calls : List DecoderCall :=
                [.directory_table_create,
                 .directory_table_read_data inode.inline_data inode.size]
              if r.1 ≠ 1 then
                libfsxfs_directory_read_file_io_handle_on_error { entries_array := r.2 } calls
              else if d.directory_table_release ≠ 1 then
                libfsxfs_directory_read_file_io_handle_on_error { entries_array := r.2 } calls
              else
                { result := 1, directory := some { entries_array := r.2 }, calls := calls }
          else if inode.fork_type = LIBFSXFS_FORK_TYPE_EXTENTS then
            if d.block_directory_create io_handle.block_size ≠ 1 then
              libfsxfs_directory_read_file_io_handle_on_error directory
                [.block_directory_create io_handle.block_size]
            else
              let file_offset : Int := 861 * 4096
              let r := d.block_directory_read_file_io_handle io_handle file_io_handle
                file_offset directory.entries_array
              let calls : List DecoderCall :=
                [.block_directory_create io_handle.block_size,
                 .block_directory_read_file_io_handle file_io_handle file_offset]
              if r.1 ≠ 1 then
                libfsxfs_directory_read_file_io_handle_on_error { entries_array := r.2 } calls
              else if d.block_directory_release ≠ 1 then
                libfsxfs_directory_read_file_io_handle_on_error { entries_array := r.2 } calls
              else
                { result := 1, directory := some { entries_array := r.2 }, calls := calls }
          else
            { result := 1, directory := some directory, calls := [] }
        else
          { result := 1, directory := some directory, calls := [] }

/-- The function `libfsxfs_directory_get_number_of_entries`: the return value and the count
stored through `number_of_entries` (`none` when nothing is stored). -/
def libfsxfs_directory_get_number_of_entries (A : libcdata_array_calls)
    (directory : Option libfsxfs_directory_t) : Int × Option Int :=
  match directory with
  | none => (-1, none)
  | some directory =>
    match A.get_number_of_entries directory.entries_array with
    | none => (-1, none)
    | some number_of_entries => (1, some number_of_entries)

/-- The function `libfsxfs_directory_get_entry_by_index`: the return value and the entry stored
through `directory_entry` (`none` when nothing is stored). -/
def libfsxfs_directory_get_entry_by_index (A : libcdata_array_calls)
    (directory : Option libfsxfs_directory_t) (entry_index : Int) :
    Int × Option libfsxfs_directory_entry_t :=
  match directory with
  | none => (-1, none)
  | some directory =>
    match A.get_entry_by_index directory.entries_array entry_index with
    | none => (-1, none)
    | some directory_entry => (1, some directory_entry)

/-- The `for` loop of `libfsxfs_directory_get_entry_by_utf8_name`, from `entry_index` on with
`remaining` = `number_of_entries - entry_index` rounds to go.  The result is the return value
and the value of `*directory_entry` on return, which is `directory_entry` (the value on entry)
when the function returns -1. -/
def libfsxfs_directory_get_entry_by_utf8_name_loop (A : libcdata_array_calls)
    (compare_with_utf8_string : libfsxfs_directory_entry_t → List Nat → Nat → Int)
    (entries_array : List libfsxfs_directory_entry_t) (utf8_string : List Nat)
    (utf8_string_length : Nat) (directory_entry : Option libfsxfs_directory_entry_t) :
    Nat → Nat → Int × Option libfsxfs_directory_entry_t
  | 0, _ => (0, none)
  | remaining + 1, entry_index =>
    match A.get_entry_by_index entries_array (entry_index : Int) with
    | none => (-1, directory_entry)
    | some safe_directory_entry =>
      let result := compare_with_utf8_string safe_directory_entry utf8_string utf8_string_length
      if result = -1 then (-1, directory_entry)
      else if result = LIBUNA_COMPARE_EQUAL then (1, some safe_directory_entry)
      else
        libfsxfs_directory_get_entry_by_utf8_name_loop A compare_with_utf8_string entries_array
          utf8_string utf8_string_length directory_entry remaining (entry_index + 1)

/-- The function `libfsxfs_directory_get_entry_by_utf8_name`.  `compare_with_utf8_string` is
`libfsxfs_directory_entry_compare_with_utf8_string` of `libfsxfs_directory_entry.c`, which is
not among the sources. -/
def libfsxfs_directory_get_entry_by_utf8_name (A : libcdata_array_calls)
    (compare_with_utf8_string : libfsxfs_directory_entry_t → List Nat → Nat → Int)
    (directory : Option libfsxfs_directory_t) (utf8_string : List Nat)
    (utf8_string_length : Nat) (directory_entry : Option libfsxfs_directory_entry_t) :
    Int × Option libfsxfs_directory_entry_t :=
  match directory with
  | none => (-1, directory_entry)
  | some directory =>
    match A.get_number_of_entries directory.entries_array with
    | none => (-1, directory_entry)
    | some number_of_entries =>
      libfsxfs_directory_get_entry_by_utf8_name_loop A compare_with_utf8_string
        directory.entries_array utf8_string utf8_string_length directory_entry
        number_of_entries.toNat 0

/-- The `for` loop of `libfsxfs_directory_get_entry_by_utf16_name`. -/
def libfsxfs_directory_get_entry_by_utf16_name_loop (A : libcdata_array_calls)
    (compare_with_utf16_string : libfsxfs_directory_entry_t → List Nat → Nat → Int)
    (entries_array : List libfsxfs_directory_entry_t) (utf16_string : List Nat)
    (utf16_string_length : Nat) (directory_entry : Option libfsxfs_directory_entry_t) :
    Nat → Nat → Int × Option libfsxfs_directory_entry_t
  | 0, _ => (0, none)
  | remaining + 1, entry_index =>
    match A.get_entry_by_index entries_array (entry_index : Int) with
    | none => (-1, directory_entry)
    | some safe_directory_entry =>
      let result :=
        compare_with_utf16_string safe_directory_entry utf16_string utf16_string_length
      if result = -1 then (-1, directory_entry)
      else if result = LIBUNA_COMPARE_EQUAL then (1, some safe_directory_entry)
      else
        libfsxfs_directory_get_entry_by_utf16_name_loop A compare_with_utf16_string
          entries_array utf16_string utf16_string_length directory_entry remaining
          (entry_index + 1)

/-- The function `libfsxfs_directory_get_entry_by_utf16_name`.  `compare_with_utf16_string` is
`libfsxfs_directory_entry_compare_with_utf16_string` of `libfsxfs_directory_entry.c`, which is
not among the sources; the string is its list of 16-bit code units. -/
def libfsxfs_directory_get_entry_by_utf16_name (A : libcdata_array_calls)
    (compare_with_utf16_string : libfsxfs_directory_entry_t → List Nat → Nat → Int)
    (directory : Option libfsxfs_directory_t) (utf16_string : List Nat)
    (utf16_string_length : Nat) (directory_entry : Option libfsxfs_directory_entry_t) :
    Int × Option libfsxfs_directory_entry_t :=
  match directory with
  | none => (-1, directory_entry)
  | some directory =>
    match A.get_number_of_entries directory.entries_array with
    | none => (-1, directory_entry)
    | some number_of_entries =>
      libfsxfs_directory_get_entry_by_utf16_name_loop A compare_with_utf16_string
        directory.entries_array utf16_string utf16_string_length directory_entry
        number_of_entries.toNat 0

/-! ## What the specification asks of the block directory read -/

/-- Following the words of the specification (design notes): the file offset of the block
directory is the physical block of the first extent of the data fork times the block size;
`none` when the fork has no extent. -/
def spec_block_directory_file_offset (io_handle : libfsxfs_io_handle_t)
    (inode : libfsxfs_inode_t) : Option Int :=
  inode.data_extents.head?.map fun extent =>
    ((extent.physical_block_number * io_handle.block_size : Nat) : Int)

/-- Following the words of the specification (4.6, leaf form): the file offsets of the data
blocks of a directory in logical order, that is the blocks of the extents of the data fork
whose logical block number is below `leaf_offset`. -/
def spec_data_block_offsets (io_handle : libfsxfs_io_handle_t) (leaf_offset : Nat)
    (inode : libfsxfs_inode_t) : List Int :=
  inode.data_extents.flatMap fun extent =>
    (List.range extent.number_of_blocks).filterMap fun k =>
      if extent.logical_block_number + k < leaf_offset then
        some (((extent.physical_block_number + k) * io_handle.block_size : Nat) : Int)
      else none

/-- Following the words of the specification (4.6, leaf form): every data block is decoded in
turn, each as a block directory at its file offset, and the decoding stops at the first block
that fails. -/
def spec_read_data_blocks (d : Decoders) (io_handle : libfsxfs_io_handle_t)
    (file_io_handle : Option libbfio_handle_t) :
    List Int → List libfsxfs_directory_entry_t → Int × List libfsxfs_directory_entry_t
  | [], entries => (1, entries)
  | file_offset :: rest, entries =>
    let r := d.block_directory_read_file_io_handle io_handle file_io_handle file_offset entries
    if r.1 ≠ 1 then r else spec_read_data_blocks d io_handle file_io_handle rest r.2

/-! ## Concrete inputs -/

/-- A library in which every call succeeds and every lookup finds an entry. -/
def library_success : Library where
  libfsxfs_volume_open := fun _ _ _ => 1
  libfsxfs_volume_open_wide := fun _ _ _ => 1
  libfsxfs_volume_open_file_io_handle := fun _ _ _ => 1
  pyfsxfs_file_object_create := (1, some { id := 7 })
  libfsxfs_volume_close := fun _ => 0
  libbfio_handle_free := fun _ => 1
  libfsxfs_volume_get_file_entry_by_inode := fun _ n => (1, some { inode_number := n })
  libfsxfs_volume_get_root_directory := fun _ => (1, some { inode_number := 128 })
  libfsxfs_volume_get_file_entry_by_utf8_path := fun _ _ _ => (1, some { inode_number := 131 })
  file_entry_object_available := true

/-- A library whose lookups by inode number and by path find nothing (result 0, no entry). -/
def library_not_found : Library :=
  { library_success with
    libfsxfs_volume_get_file_entry_by_inode := fun _ _ => (0, none)
    libfsxfs_volume_get_file_entry_by_utf8_path := fun _ _ _ => (0, none) }

/-- A library whose lookup by path fails (result -1). -/
def library_lookup_error : Library :=
  { library_success with
    libfsxfs_volume_get_file_entry_by_utf8_path := fun _ _ _ => (-1, none) }

/-- A Python Unicode string `"image.raw"` passed as filename. -/
def unicode_filename : PyArgument where
  is_instance_unicode := 1
  as_wide_string := [105, 109, 97, 103, 101, 46, 114, 97, 119]
  as_utf8_string := some [105, 109, 97, 103, 101, 46, 114, 97, 119]
  is_instance_bytes := 0
  bytes_as_string := []
  has_attr_read := 0
  has_attr_seek := 0

/-- A Python file-like object with a `read` and a `seek` attribute. -/
def seekable_file_object : PyArgument where
  is_instance_unicode := 0
  as_wide_string := []
  as_utf8_string := none
  is_instance_bytes := 0
  bytes_as_string := []
  has_attr_read := 1
  has_attr_seek := 1

/-- A volume object right after `pyfsxfs_volume_init`. -/
def fresh_volume : pyfsxfs_volume_t :=
  { volume := some 1, file_io_handle := none }

/-- The session after `open_file_object` and `get_root_directory` both succeeded: the volume
holds the byte source 7 and one file entry object, the root directory, is open. -/
def session_with_open_root_directory : Session :=
  Session.run (Session.init 1)
    [(library_success, .open_file_object seekable_file_object none),
     (library_success, .get_root_directory)]

/-- A directory entry named `a`. -/
def entry_a : libfsxfs_directory_entry_t := { inode_number := 131, name := [97] }

/-- A directory entry named `b`. -/
def entry_b : libfsxfs_directory_entry_t := { inode_number := 132, name := [98] }

/-- A directory entry named `c`. -/
def entry_c : libfsxfs_directory_entry_t := { inode_number := 133, name := [99] }

/-- A directory with the entries `a`, `b`, `c`. -/
def directory_abc : libfsxfs_directory_t := { entries_array := [entry_a, entry_b, entry_c] }

/-- A comparison of an entry with a string for the examples: 1 (`LIBUNA_COMPARE_EQUAL`) when
the name is the string, 0 (`LIBUNA_COMPARE_LESS`) when it is not, and -1 for an entry without
a name. -/
def compare_name (e : libfsxfs_directory_entry_t) (string : List Nat) (length : Nat) : Int :=
  if e.name = [] then -1 else if e.name = string.take length then 1 else 0

/-- Decoders over a byte source that holds three directory blocks: the block at file offset
40960 (block 10) holds the entry `a`, the block at 3526656 (block 861) the entry `b`, the block
at 3530752 (block 862) the entry `c`; no other offset holds a directory block.  The shortform
table yields the entry `a`. -/
def decoders_three_blocks : Decoders where
  directory_table_create := 1
  directory_table_read_data := fun _ _ _ entries => (1, entries ++ [entry_a])
  directory_table_release := 1
  block_directory_create := fun _ => 1
  block_directory_read_file_io_handle := fun _ _ file_offset entries =>
    if file_offset = 40960 then (1, entries ++ [entry_a])
    else if file_offset = 3526656 then (1, entries ++ [entry_b])
    else if file_offset = 3530752 then (1, entries ++ [entry_c])
    else (-1, entries)
  block_directory_release := 1

/-- Decoders whose shortform table appends the entry `a` and then fails. -/
def decoders_table_fails : Decoders :=
  { decoders_three_blocks with
    directory_table_read_data := fun _ _ _ entries => (-1, entries ++ [entry_a]) }

/-- An IO handle with 4096-byte blocks and the abort flag clear. -/
def io_handle_4096 : libfsxfs_io_handle_t := { block_size := 4096, abort := false }

/-- An IO handle with 4096-byte blocks and the abort flag set. -/
def io_handle_4096_aborted : libfsxfs_io_handle_t := { block_size := 4096, abort := true }

/-- A directory inode in extents format whose one extent is the physical block 10. -/
def inode_block_10 : libfsxfs_inode_t :=
  { file_mode := 0x41ed, fork_type := LIBFSXFS_FORK_TYPE_EXTENTS, size := 4096,
    inline_data := [],
    data_extents :=
      [{ logical_block_number := 0, physical_block_number := 10, number_of_blocks := 1 }] }

/-- A directory inode in extents format with two data blocks: logical block 0 is the physical
block 861 and logical block 1 the physical block 862. -/
def inode_two_data_blocks : libfsxfs_inode_t :=
  { file_mode := 0x41ed, fork_type := LIBFSXFS_FORK_TYPE_EXTENTS, size := 8192,
    inline_data := [],
    data_extents :=
      [{ logical_block_number := 0, physical_block_number := 861, number_of_blocks := 1 },
       { logical_block_number := 1, physical_block_number := 862, number_of_blocks := 1 }] }

/-- A directory inode whose data fork is inline. -/
def inode_inline : libfsxfs_inode_t :=
  { file_mode := 0x41ed, fork_type := LIBFSXFS_FORK_TYPE_INLINE_DATA, size := 6,
    inline_data := [1, 0, 0, 0, 0, 128], data_extents := [] }


/-! ## pyfsxfs: the label -/

/-- The calls `pyfsxfs_volume_get_label` makes, each as what it returns.  The two libfsxfs
functions are defined in files that are not among the sources. -/
structure LabelCalls where
  /-- The return value of `libfsxfs_volume_get_utf8_label_size` and the value of
  `utf8_string_size` after the call. -/
  libfsxfs_volume_get_utf8_label_size : Option Nat → Int × Nat
  /-- Whether `PyMem_Malloc` returns a buffer of the given size. -/
  PyMem_Malloc : Nat → Bool
  /-- The return value of `libfsxfs_volume_get_utf8_label` and the bytes of the buffer after
  the call. -/
  libfsxfs_volume_get_utf8_label : Option Nat → Nat → Int × List Nat
  /-- The code points `PyUnicode_DecodeUTF8` decodes from the given bytes, `none` when it
  returns NULL. -/
  PyUnicode_DecodeUTF8 : List Nat → Option (List Nat)

/-- The function `pyfsxfs_volume_get_label`. -/
def pyfsxfs_volume_get_label (lib : LabelCalls) (pyfsxfs_volume : Option pyfsxfs_volume_t) :
    PyOutcome :=
  match pyfsxfs_volume with
  | none =>
    { result := .raised .ValueError, pyfsxfs_volume := none, calls := [],
      freed_file_entries := [] }
  | some v =>
    let size_result := lib.libfsxfs_volume_get_utf8_label_size v.volume
    let utf8_string_size := size_result.2
    if size_result.1 = -1 then
      { result := .raised .IOError, pyfsxfs_volume := some v, calls := [],
        freed_file_entries := [] }
    else if size_result.1 = 0 ∨ utf8_string_size = 0 then
      { result := .object .None, pyfsxfs_volume := some v, calls := [],
        freed_file_entries := [] }
    else if lib.PyMem_Malloc utf8_string_size = false then
      { result := .raised .MemoryError, pyfsxfs_volume := some v, calls := [],
        freed_file_entries := [] }
    else
      let label_result := lib.libfsxfs_volume_get_utf8_label v.volume utf8_string_size
      if label_result.1 ≠ 1 then
        { result := .raised .IOError, pyfsxfs_volume := some v, calls := [],
          freed_file_entries := [] }
      else
        match lib.PyUnicode_DecodeUTF8 (label_result.2.take (utf8_string_size - 1)) with
        | none =>
          { result := .raised .IOError, pyfsxfs_volume := some v, calls := [],
            freed_file_entries := [] }
        | some string_object =>
          { result := .object (.unicode string_object), pyfsxfs_volume := some v, calls := [],
            freed_file_entries := [] }

/-! ## libfsxfs: creating a directory -/

/-- The call `libcdata_array_append_entry`: the entry is stored after the entries the array
holds. -/
def libcdata_array_append_entry (entries : List libfsxfs_directory_entry_t)
    (entry : libfsxfs_directory_entry_t) : List libfsxfs_directory_entry_t :=
  entries ++ [entry]

/-- The three calls inside `libfsxfs_directory_initialize` that can fail. -/
structure DirectoryMemory where
  /-- Whether `memory_allocate_structure` returns a structure. -/
  memory_allocate_structure : Bool
  /-- Whether `memory_set` returns the structure it cleared. -/
  memory_set : Bool
  /-- The return value of `libcdata_array_initialize` for an array of 0 entries. -/
  libcdata_array_create : Int

/-- The function `libfsxfs_directory_initialize`.  The argument is the pointer `directory`
(`none` is NULL) with the value `*directory` it points at; the result is the return value and
the argument as the call leaves it.  The array `libcdata_array_initialize` makes for 0 entries
has no entries. -/
def libfsxfs_directory_initialize (m : DirectoryMemory)
    (directory : Option (Option libfsxfs_directory_t)) :
    Int × Option (Option libfsxfs_directory_t) :=
  match directory with
  | none => (-1, none)
  | some (some value) => (-1, some (some value))
  | some none =>
    if m.memory_allocate_structure = false then
      (-1, some none)
    else if m.memory_set = false then
      (-1, some none)
    else if m.libcdata_array_create ≠ 1 then
      (-1, some none)
    else
      (1, some (some { entries_array := [] }))

/-! ## What the specification asks of the block form -/

/-- Following the words of the specification (data model):
directory_block_size = block_size × 2^dir_block_log2. -/
def spec_directory_block_size (block_size dir_block_log2 : Nat) : Nat :=
  block_size * 2 ^ dir_block_log2

/-- Following the words of the specification (4.6, block form): the block form applies when the
data fork is `extents`, the size equals the directory block size and there is exactly one
extent. -/
def spec_is_block_form (block_size dir_block_log2 : Nat) (inode : libfsxfs_inode_t) : Bool :=
  decide (inode.fork_type = LIBFSXFS_FORK_TYPE_EXTENTS)
    && decide (inode.size = spec_directory_block_size block_size dir_block_log2)
    && decide (inode.data_extents.length = 1)

/-! ## Further concrete inputs -/

/-- A volume whose label is `XFS-TEST`: the size with the terminating NUL is 9, the buffer holds
the eight characters and the NUL, and the bytes decode to themselves. -/
def label_calls_xfs_test : LabelCalls where
  libfsxfs_volume_get_utf8_label_size := fun _ => (1, 9)
  PyMem_Malloc := fun _ => true
  libfsxfs_volume_get_utf8_label := fun _ _ => (1, [88, 70, 83, 45, 84, 69, 83, 84, 0])
  PyUnicode_DecodeUTF8 := fun bytes => some bytes

/-- A volume without a label: the size call returns 0. -/
def label_calls_no_label : LabelCalls :=
  { label_calls_xfs_test with libfsxfs_volume_get_utf8_label_size := fun _ => (0, 0) }

/-- A volume whose label size cannot be retrieved. -/
def label_calls_size_error : LabelCalls :=
  { label_calls_xfs_test with libfsxfs_volume_get_utf8_label_size := fun _ => (-1, 0) }

/-- A library whose `libfsxfs_volume_get_root_directory` returns 0 and stores no entry. -/
def library_no_root_directory : Library :=
  { library_success with libfsxfs_volume_get_root_directory := fun _ => (0, none) }

/-- A library whose `libfsxfs_volume_close` fails. -/
def library_close_error : Library :=
  { library_success with libfsxfs_volume_close := fun _ => -1 }

/-- A volume object that holds the byte source 7. -/
def volume_with_handle : pyfsxfs_volume_t :=
  { volume := some 1, file_io_handle := some { id := 7 } }

/-- A Python object with a `read` attribute and no `seek` attribute. -/
def file_object_without_seek : PyArgument :=
  { seekable_file_object with has_attr_seek := 0 }

/-- A regular file (mode 0100644) whose data fork is a btree. -/
def inode_regular_file : libfsxfs_inode_t :=
  { file_mode := 0x81a4, fork_type := LIBFSXFS_FORK_TYPE_BTREE, size := 1048576,
    inline_data := [], data_extents := [] }

/-- A directory inode whose data fork is a btree. -/
def inode_btree_directory : libfsxfs_inode_t :=
  { file_mode := 0x41ed, fork_type := LIBFSXFS_FORK_TYPE_BTREE, size := 1048576,
    inline_data := [], data_extents := [] }

/-! ## Concrete inputs for the lookups with several matches and for repeated opens -/

/-- A second directory entry named `b`, with another inode number. -/
def entry_b_again : libfsxfs_directory_entry_t := { inode_number := 140, name := [98] }

/-- A directory entry without a name, for which `compare_name` fails. -/
def entry_nameless : libfsxfs_directory_entry_t := { inode_number := 141, name := [] }

/-- A directory with the entries `a`, `b`, a second `b` and an entry without a name. -/
def directory_two_b : libfsxfs_directory_t :=
  { entries_array := [entry_a, entry_b, entry_b_again, entry_nameless] }

/-- A library in which the file IO handle 7 is created and the library open then fails. -/
def library_open_error : Library :=
  { library_success with libfsxfs_volume_open_file_io_handle := fun _ _ _ => -1 }

/-- A library in which the file IO handle cannot be created. -/
def library_create_error : Library :=
  { library_success with pyfsxfs_file_object_create := (-1, none) }

/-! ## pyfsxfs: the conversion of the mode argument -/

theorem pyfsxfs_volume_open_finish_result (v : pyfsxfs_volume_t) (call : LibraryCall)
    (result : Int) :
    (pyfsxfs_volume_open_finish v call result).result ≠ .raised .ValueError
      ∧ (pyfsxfs_volume_open_finish v call result).calls = [call] := by
  unfold pyfsxfs_volume_open_finish
  split <;> simp

theorem pyfsxfs_volume_open_file_object_on_error_result (exception : PyExc)
    (v : pyfsxfs_volume_t) (calls : List LibraryCall) :
    (pyfsxfs_volume_open_file_object_on_error exception v calls).result = .raised exception := by
  unfold pyfsxfs_volume_open_file_object_on_error
  split <;> rfl

/-- C2 (the code at the failing input): whenever `libfsxfs_volume_get_file_entry_by_inode`
reports not found (result 0), `get_file_entry_by_inode` raises IOError instead of returning
None: its first test is `result != 1`, so the branch for `result == 0` is out of reach. -/
theorem pyfsxfs_volume_get_file_entry_by_inode_not_found_raises (lib : Library)
    (v : pyfsxfs_volume_t) (inode_number : Nat)
    (h : (lib.libfsxfs_volume_get_file_entry_by_inode v.volume (inode_number % 2 ^ 64)).1 = 0) :
    (pyfsxfs_volume_get_file_entry_by_inode lib (some v) (some inode_number)).result
      = .raised .IOError := by
  have h1 : (lib.libfsxfs_volume_get_file_entry_by_inode v.volume
      (inode_number % 2 ^ 64)).1 ≠ 1 := by rw [h]; decide
  simp only [pyfsxfs_volume_get_file_entry_by_inode, h1, ne_eq, not_false_eq_true, if_true,
    pyfsxfs_volume_lookup_on_error]

/-- C2, at the failing input: inode number 128, the library reporting not found. -/
theorem pyfsxfs_volume_get_file_entry_by_inode_not_found_raises_witness :
    (library_not_found.libfsxfs_volume_get_file_entry_by_inode fresh_volume.volume
        (128 % 2 ^ 64)).1 = 0
    ∧ (pyfsxfs_volume_get_file_entry_by_inode library_not_found (some fresh_volume)
        (some 128)).result = .raised .IOError :=
  ⟨rfl, pyfsxfs_volume_get_file_entry_by_inode_not_found_raises library_not_found fresh_volume
    128 rfl⟩

/-- C3: `get_file_entry_by_path` maps the result of
`libfsxfs_volume_get_file_entry_by_utf8_path` as follows.  Result 0 returns None, with no
exception and nothing freed; result -1 raises IOError; result 1 with the entry `file_entry`
returns, when the Python object can be created, a file entry object that holds exactly
`file_entry` and the volume object as its parent, and raises MemoryError when it cannot. -/
theorem pyfsxfs_volume_get_file_entry_by_path_maps_result (lib : Library)
    (v : pyfsxfs_volume_t) (utf8_path : List Nat) :
    ((lib.libfsxfs_volume_get_file_entry_by_utf8_path v.volume utf8_path utf8_path.length).1 = 0 →
      pyfsxfs_volume_get_file_entry_by_path lib (some v) (some utf8_path)
        = { result := .object .None, pyfsxfs_volume := some v, calls := [],
            freed_file_entries := [] })
    ∧ ((lib.libfsxfs_volume_get_file_entry_by_utf8_path v.volume utf8_path
          utf8_path.length).1 = -1 →
      (pyfsxfs_volume_get_file_entry_by_path lib (some v) (some utf8_path)).result
        = .raised .IOError)
    ∧ (∀ file_entry,
        lib.libfsxfs_volume_get_file_entry_by_utf8_path v.volume utf8_path utf8_path.length
          = (1, some file_entry) →
        (lib.file_entry_object_available = true →
          (pyfsxfs_volume_get_file_entry_by_path lib (some v) (some utf8_path)).result
            = .object (.file_entry { file_entry := file_entry, parent_object := v }))
        ∧ (lib.file_entry_object_available = false →
          (pyfsxfs_volume_get_file_entry_by_path lib (some v) (some utf8_path)).result
            = .raised .MemoryError)) := by
  refine ⟨?_, ?_, ?_⟩
  · intro h
    simp [pyfsxfs_volume_get_file_entry_by_path, h]
  · intro h
    simp [pyfsxfs_volume_get_file_entry_by_path, h, pyfsxfs_volume_lookup_on_error]
  · intro file_entry h
    constructor
    · intro ha
      simp [pyfsxfs_volume_get_file_entry_by_path, h, pyfsxfs_volume_lookup_wrap,
        pyfsxfs_file_entry_new, ha]
    · intro ha
      simp [pyfsxfs_volume_get_file_entry_by_path, h, pyfsxfs_volume_lookup_wrap,
        pyfsxfs_file_entry_new, ha, pyfsxfs_volume_lookup_on_error]

/-- C3, at concrete inputs: for the path `"/a"`, a library that finds nothing gives None, one
that fails gives IOError, and one that finds inode 131 gives the object wrapping that entry. -/
theorem pyfsxfs_volume_get_file_entry_by_path_maps_result_witness :
    (pyfsxfs_volume_get_file_entry_by_path library_not_found (some fresh_volume)
        (some [47, 97])).result = .object .None
    ∧ (pyfsxfs_volume_get_file_entry_by_path library_lookup_error (some fresh_volume)
        (some [47, 97])).result = .raised .IOError
    ∧ (pyfsxfs_volume_get_file_entry_by_path library_success (some fresh_volume)
        (some [47, 97])).result
        = .object (.file_entry
            { file_entry := { inode_number := 131 }, parent_object := fresh_volume }) :=
  ⟨congrArg PyOutcome.result
      ((pyfsxfs_volume_get_file_entry_by_path_maps_result library_not_found fresh_volume
        [47, 97]).1 rfl),
   (pyfsxfs_volume_get_file_entry_by_path_maps_result library_lookup_error fresh_volume
      [47, 97]).2.1 rfl,
   ((pyfsxfs_volume_get_file_entry_by_path_maps_result library_success fresh_volume
      [47, 97]).2.2 { inode_number := 131 } rfl).1 rfl⟩

/-! ## The access flags of `open` and `open_file_object` -/

theorem pyfsxfs_volume_open_file_object_on_error_flags (exception : PyExc)
    (v : pyfsxfs_volume_t) (calls : List LibraryCall) (c : LibraryCall) (f : Nat)
    (hc : c ∈ (pyfsxfs_volume_open_file_object_on_error exception v calls).calls)
    (hf : c.access_flags? = some f) : c ∈ calls := by
  unfold pyfsxfs_volume_open_file_object_on_error at hc
  split at hc
  · simp only [List.mem_append, List.mem_singleton] at hc
    rcases hc with hc | hc
    · exact hc
    · subst hc
      simp [LibraryCall.access_flags?] at hf
  · exact hc

/-- C10: every call by which `open` or `open_file_object` asks the library to open a volume
(`libfsxfs_volume_open`, `libfsxfs_volume_open_wide`, `libfsxfs_volume_open_file_io_handle`)
passes the access flags `LIBFSXFS_OPEN_READ`, whatever the arguments and the mode are; the
write flag is never among them. -/
theorem pyfsxfs_volume_open_access_flags (cfg : BuildConfig) (lib : Library)
    (pyfsxfs_volume : Option pyfsxfs_volume_t)
    (arguments : Option (PyArgument × Option (List Char))) (c : LibraryCall) (f : Nat)
    (hc : c ∈ (pyfsxfs_volume_open cfg lib pyfsxfs_volume arguments).calls
      ∨ c ∈ (pyfsxfs_volume_open_file_object lib pyfsxfs_volume arguments).calls)
    (hf : c.access_flags? = some f) :
    f = LIBFSXFS_OPEN_READ ∧ f &&& LIBFSXFS_ACCESS_FLAG_WRITE = 0 := by
  have key : f = LIBFSXFS_OPEN_READ := by
    rcases hc with hc | hc
    · unfold pyfsxfs_volume_open at hc
      split at hc
      · simp at hc
      · split at hc
        · simp at hc
        · split_ifs at hc
          · simp at hc
          · simp at hc
          · rw [(pyfsxfs_volume_open_finish_result _ _ _).2, List.mem_singleton] at hc
            subst hc
            simpa [LibraryCall.access_flags?] using hf.symm
          · split at hc
            · simp at hc
            · rw [(pyfsxfs_volume_open_finish_result _ _ _).2, List.mem_singleton] at hc
              subst hc
              simpa [LibraryCall.access_flags?] using hf.symm
          · simp at hc
          · rw [(pyfsxfs_volume_open_finish_result _ _ _).2, List.mem_singleton] at hc
            subst hc
            simpa [LibraryCall.access_flags?] using hf.symm
          · simp at hc
    · unfold pyfsxfs_volume_open_file_object at hc
      split at hc
      · simp at hc
      · split at hc
        · simp at hc
        · dsimp only at hc
          split_ifs at hc
          · simp at hc
          · simp at hc
          · simp at hc
          · simp at hc
          · have hc2 := pyfsxfs_volume_open_file_object_on_error_flags _ _ _ c f hc hf
            simp only [List.mem_singleton] at hc2
            subst hc2
            simp [LibraryCall.access_flags?] at hf
          · have hc2 := pyfsxfs_volume_open_file_object_on_error_flags _ _ _ c f hc hf
            simp only [List.mem_cons, List.mem_singleton, List.not_mem_nil, or_false] at hc2
            rcases hc2 with hc2 | hc2
            · subst hc2
              simp [LibraryCall.access_flags?] at hf
            · subst hc2
              simpa [LibraryCall.access_flags?] using hf.symm
          · simp only [List.mem_cons, List.mem_singleton, List.not_mem_nil, or_false] at hc
            rcases hc with hc | hc
            · subst hc
              simp [LibraryCall.access_flags?] at hf
            · subst hc
              simpa [LibraryCall.access_flags?] using hf.symm
  subst key
  exact ⟨rfl, by decide⟩

/-- C10, at concrete inputs: `open` called with the mode `"rw"` reaches
`libfsxfs_volume_open`, and the flags of that call are `LIBFSXFS_OPEN_READ`. -/
theorem pyfsxfs_volume_open_access_flags_witness :
    (LibraryCall.libfsxfs_volume_open [105, 109, 97, 103, 101, 46, 114, 97, 119]
        LIBFSXFS_OPEN_READ
      ∈ (pyfsxfs_volume_open { HAVE_WIDE_SYSTEM_CHARACTER := false } library_success
          (some fresh_volume) (some (unicode_filename, some ['r', 'w']))).calls)
    ∧ LIBFSXFS_OPEN_READ = LIBFSXFS_OPEN_READ
    ∧ LIBFSXFS_OPEN_READ &&& LIBFSXFS_ACCESS_FLAG_WRITE = 0 :=
  ⟨by decide,
   pyfsxfs_volume_open_access_flags { HAVE_WIDE_SYSTEM_CHARACTER := false } library_success
    (some fresh_volume) (some (unicode_filename, some ['r', 'w']))
    (.libfsxfs_volume_open [105, 109, 97, 103, 101, 46, 114, 97, 119] LIBFSXFS_OPEN_READ)
    LIBFSXFS_OPEN_READ (Or.inl (by decide)) rfl⟩

/-! ## Closing a volume whose file entries are still open -/

/-- C9 (as stated, refuted): in a reachable state in which the root directory entry obtained
from the volume is still open, `close()` does not fail and does free the byte source: it
returns None, `libbfio_handle_free` has been called on the handle, `file_io_handle` is NULL and
the entry is still open. -/
theorem pyfsxfs_volume_close_frees_byte_source_under_open_entry :
    Session.Reachable session_with_open_root_directory
    ∧ session_with_open_root_directory.pyfsxfs_volume.file_io_handle = some { id := 7 }
    ∧ session_with_open_root_directory.open_file_entries
        = [{ file_entry := { inode_number := 128 },
             parent_object := { volume := some 1, file_io_handle := some { id := 7 } } }]
    ∧ (session_with_open_root_directory.step library_success .close).2
        = some (.object .None)
    ∧ ({ id := 7 } : libbfio_handle_t)
        ∈ (session_with_open_root_directory.step library_success .close).1.released_handles
    ∧ (session_with_open_root_directory.step library_success .close).1.pyfsxfs_volume.file_io_handle
        = none
    ∧ (session_with_open_root_directory.step library_success .close).1.open_file_entries
        = session_with_open_root_directory.open_file_entries := by
  refine ⟨⟨1, _, rfl⟩, ?_, ?_, ?_, ?_, ?_, ?_⟩ <;> decide

/-- C9 (amended): `close()` keeps no account of the file entries obtained from the volume.  With
a byte source `h` set, it fails exactly when `libfsxfs_volume_close` does not return 0 or
`libbfio_handle_free` does not return 1; whenever `libfsxfs_volume_close` returns 0 the byte
source is freed and `file_io_handle` is NULL afterwards, however many file entries are open;
and the open file entries are the same before and after. -/
theorem pyfsxfs_volume_close_ignores_open_entries (lib : Library) (s : Session)
    (h : libbfio_handle_t) (hh : s.pyfsxfs_volume.file_io_handle = some h) :
    ((∃ e, (s.step lib .close).2 = some (.raised e))
        ↔ (lib.libfsxfs_volume_close s.pyfsxfs_volume.volume ≠ 0
            ∨ lib.libbfio_handle_free h ≠ 1))
    ∧ (lib.libfsxfs_volume_close s.pyfsxfs_volume.volume = 0 →
        h ∈ (s.step lib .close).1.released_handles
        ∧ (s.step lib .close).1.pyfsxfs_volume.file_io_handle = none)
    ∧ (s.step lib .close).1.open_file_entries = s.open_file_entries := by
  by_cases hc : lib.libfsxfs_volume_close s.pyfsxfs_volume.volume = 0
  · by_cases hf : lib.libbfio_handle_free h = 1
    · simp [Session.step, Session.after, pyfsxfs_volume_close, hh, hc, hf, released_by,
        returned_file_entry]
    · simp [Session.step, Session.after, pyfsxfs_volume_close, hh, hc, hf, released_by,
        returned_file_entry]
  · simp [Session.step, Session.after, pyfsxfs_volume_close, hc, released_by,
      returned_file_entry]

/-- C9 (amended), at concrete inputs: with the root directory entry still open and the library
closing without error, the byte source 7 is freed and the entry stays open. -/
theorem pyfsxfs_volume_close_ignores_open_entries_witness :
    session_with_open_root_directory.pyfsxfs_volume.file_io_handle = some { id := 7 }
    ∧ library_success.libfsxfs_volume_close
        session_with_open_root_directory.pyfsxfs_volume.volume = 0
    ∧ ({ id := 7 } : libbfio_handle_t)
        ∈ (session_with_open_root_directory.step library_success .close).1.released_handles
    ∧ (session_with_open_root_directory.step library_success .close).1.pyfsxfs_volume.file_io_handle
        = none
    ∧ (session_with_open_root_directory.step library_success .close).1.open_file_entries
        = session_with_open_root_directory.open_file_entries :=
  ⟨by decide, rfl,
   ((pyfsxfs_volume_close_ignores_open_entries library_success
      session_with_open_root_directory { id := 7 } (by decide)).2.1 rfl).1,
   ((pyfsxfs_volume_close_ignores_open_entries library_success
      session_with_open_root_directory { id := 7 } (by decide)).2.1 rfl).2,
   (pyfsxfs_volume_close_ignores_open_entries library_success
      session_with_open_root_directory { id := 7 } (by decide)).2.2⟩

/-! ## Lookup of a directory entry by name -/

theorem libfsxfs_directory_get_entry_by_utf16_name_loop_eq (A : libcdata_array_calls)
    (compare : libfsxfs_directory_entry_t → List Nat → Nat → Int)
    (entries_array : List libfsxfs_directory_entry_t) (string : List Nat) (length : Nat)
    (directory_entry : Option libfsxfs_directory_entry_t) (remaining entry_index : Nat) :
    libfsxfs_directory_get_entry_by_utf16_name_loop A compare entries_array string length
        directory_entry remaining entry_index
      = libfsxfs_directory_get_entry_by_utf8_name_loop A compare entries_array string length
        directory_entry remaining entry_index := by
  induction remaining generalizing entry_index with
  | zero => rfl
  | succ n ih =>
    simp only [libfsxfs_directory_get_entry_by_utf16_name_loop,
      libfsxfs_directory_get_entry_by_utf8_name_loop, ih]

theorem libfsxfs_directory_get_entry_by_utf16_name_eq :
    libfsxfs_directory_get_entry_by_utf16_name = libfsxfs_directory_get_entry_by_utf8_name := by
  funext A compare directory string length directory_entry
  cases directory with
  | none => rfl
  | some directory =>
    simp only [libfsxfs_directory_get_entry_by_utf16_name,
      libfsxfs_directory_get_entry_by_utf8_name,
      libfsxfs_directory_get_entry_by_utf16_name_loop_eq]

/-- The three ways the loop ends: after all rounds with no match and no failure (0, NULL); at
the first round `k` whose entry compares equal (1, that entry); at the first round `k` whose
fetch or comparison fails (-1, `*directory_entry` untouched).  In each case every round before
fetched an entry that compared neither failed nor equal. -/
theorem libfsxfs_directory_get_entry_by_utf8_name_loop_cases (A : libcdata_array_calls)
    (compare : libfsxfs_directory_entry_t → List Nat → Nat → Int)
    (entries_array : List libfsxfs_directory_entry_t) (string : List Nat) (length : Nat)
    (directory_entry : Option libfsxfs_directory_entry_t) (remaining entry_index : Nat) :
    (libfsxfs_directory_get_entry_by_utf8_name_loop A compare entries_array string length
          directory_entry remaining entry_index = (0, none)
        ∧ ∀ j, j < remaining → ∃ e, A.get_entry_by_index entries_array
            ((entry_index + j : Nat) : Int) = some e
          ∧ compare e string length ≠ -1 ∧ compare e string length ≠ LIBUNA_COMPARE_EQUAL)
    ∨ (∃ k e, k < remaining
        ∧ libfsxfs_directory_get_entry_by_utf8_name_loop A compare entries_array string length
          directory_entry remaining entry_index = (1, some e)
        ∧ A.get_entry_by_index entries_array ((entry_index + k : Nat) : Int) = some e
        ∧ compare e string length = LIBUNA_COMPARE_EQUAL
        ∧ ∀ j, j < k → ∃ e, A.get_entry_by_index entries_array
            ((entry_index + j : Nat) : Int) = some e
          ∧ compare e string length ≠ -1 ∧ compare e string length ≠ LIBUNA_COMPARE_EQUAL)
    ∨ (∃ k, k < remaining
        ∧ libfsxfs_directory_get_entry_by_utf8_name_loop A compare entries_array string length
          directory_entry remaining entry_index = (-1, directory_entry)
        ∧ (A.get_entry_by_index entries_array ((entry_index + k : Nat) : Int) = none
            ∨ ∃ e, A.get_entry_by_index entries_array ((entry_index + k : Nat) : Int) = some e
              ∧ compare e string length = -1)
        ∧ ∀ j, j < k → ∃ e, A.get_entry_by_index entries_array
            ((entry_index + j : Nat) : Int) = some e
          ∧ compare e string length ≠ -1 ∧ compare e string length ≠ LIBUNA_COMPARE_EQUAL) := by
  induction remaining generalizing entry_index with
  | zero =>
    left
    exact ⟨rfl, fun j hj => absurd hj (Nat.not_lt_zero j)⟩
  | succ n ih =>
    cases hget : A.get_entry_by_index entries_array ((entry_index : Nat) : Int) with
    | none =>
      right; right
      refine ⟨0, Nat.succ_pos n, ?_, Or.inl (by simpa using hget),
        fun j hj => absurd hj (Nat.not_lt_zero j)⟩
      simp only [libfsxfs_directory_get_entry_by_utf8_name_loop, hget]
    | some e0 =>
      by_cases h1 : compare e0 string length = -1
      · right; right
        refine ⟨0, Nat.succ_pos n, ?_, Or.inr ⟨e0, by simpa using hget, h1⟩,
          fun j hj => absurd hj (Nat.not_lt_zero j)⟩
        simp only [libfsxfs_directory_get_entry_by_utf8_name_loop, hget, h1, if_true]
      · by_cases h2 : compare e0 string length = LIBUNA_COMPARE_EQUAL
        · right; left
          refine ⟨0, e0, Nat.succ_pos n, ?_, by simpa using hget, h2,
            fun j hj => absurd hj (Nat.not_lt_zero j)⟩
          simp only [libfsxfs_directory_get_entry_by_utf8_name_loop, hget]
          rw [if_neg h1, if_pos h2]
        · have hstep : libfsxfs_directory_get_entry_by_utf8_name_loop A compare entries_array
              string length directory_entry (n + 1) entry_index
              = libfsxfs_directory_get_entry_by_utf8_name_loop A compare entries_array
                string length directory_entry n (entry_index + 1) := by
            simp only [libfsxfs_directory_get_entry_by_utf8_name_loop, hget]
            rw [if_neg h1, if_neg h2]
          have shift : ∀ k, (∀ j, j < k → ∃ e, A.get_entry_by_index entries_array
                ((entry_index + 1 + j : Nat) : Int) = some e
              ∧ compare e string length ≠ -1
              ∧ compare e string length ≠ LIBUNA_COMPARE_EQUAL) →
              ∀ j, j < k + 1 → ∃ e, A.get_entry_by_index entries_array
                ((entry_index + j : Nat) : Int) = some e
              ∧ compare e string length ≠ -1
              ∧ compare e string length ≠ LIBUNA_COMPARE_EQUAL := by
            intro k hk j hj
            cases j with
            | zero => exact ⟨e0, by simpa using hget, h1, h2⟩
            | succ j =>
              have := hk j (Nat.lt_of_succ_lt_succ hj)
              rwa [show entry_index + 1 + j = entry_index + (j + 1) by omega] at this
          rw [hstep]
          rcases ih (entry_index + 1) with ⟨hr, hall⟩ | ⟨k, e, hk, hr, hg, hc, hall⟩
            | ⟨k, hk, hr, hfail, hall⟩
          · left
            exact ⟨hr, shift n hall⟩
          · right; left
            refine ⟨k + 1, e, Nat.succ_lt_succ hk, hr, ?_, hc, shift k hall⟩
            rwa [show entry_index + 1 + k = entry_index + (k + 1) by omega] at hg
          · right; right
            refine ⟨k + 1, Nat.succ_lt_succ hk, hr, ?_, shift k hall⟩
            rwa [show entry_index + 1 + k = entry_index + (k + 1) by omega] at hfail

/-- The three ways `libfsxfs_directory_get_entry_by_utf8_name` ends once the entry count
`number_of_entries` has been retrieved. -/
theorem libfsxfs_directory_get_entry_by_utf8_name_cases (A : libcdata_array_calls)
    (compare : libfsxfs_directory_entry_t → List Nat → Nat → Int)
    (directory : libfsxfs_directory_t) (string : List Nat) (length : Nat)
    (directory_entry : Option libfsxfs_directory_entry_t) (number_of_entries : Int)
    (hn : A.get_number_of_entries directory.entries_array = some number_of_entries) :
    (libfsxfs_directory_get_entry_by_utf8_name A compare (some directory) string length
          directory_entry = (0, none)
        ∧ ∀ j : Nat, (j : Int) < number_of_entries →
          ∃ e, A.get_entry_by_index directory.entries_array (j : Int) = some e
          ∧ compare e string length ≠ -1 ∧ compare e string length ≠ LIBUNA_COMPARE_EQUAL)
    ∨ (∃ (k : Nat) (e : libfsxfs_directory_entry_t), (k : Int) < number_of_entries
        ∧ libfsxfs_directory_get_entry_by_utf8_name A compare (some directory) string length
          directory_entry = (1, some e)
        ∧ A.get_entry_by_index directory.entries_array (k : Int) = some e
        ∧ compare e string length = LIBUNA_COMPARE_EQUAL
        ∧ ∀ j : Nat, j < k →
          ∃ e, A.get_entry_by_index directory.entries_array (j : Int) = some e
          ∧ compare e string length ≠ -1 ∧ compare e string length ≠ LIBUNA_COMPARE_EQUAL)
    ∨ (∃ k : Nat, (k : Int) < number_of_entries
        ∧ libfsxfs_directory_get_entry_by_utf8_name A compare (some directory) string length
          directory_entry = (-1, directory_entry)
        ∧ (A.get_entry_by_index directory.entries_array (k : Int) = none
            ∨ ∃ e, A.get_entry_by_index directory.entries_array (k : Int) = some e
              ∧ compare e string length = -1)
        ∧ ∀ j : Nat, j < k →
          ∃ e, A.get_entry_by_index directory.entries_array (j : Int) = some e
          ∧ compare e string length ≠ -1 ∧ compare e string length ≠ LIBUNA_COMPARE_EQUAL) := by
  have hR : libfsxfs_directory_get_entry_by_utf8_name A compare (some directory) string length
      directory_entry
      = libfsxfs_directory_get_entry_by_utf8_name_loop A compare directory.entries_array string
        length directory_entry number_of_entries.toNat 0 := by
    simp only [libfsxfs_directory_get_entry_by_utf8_name, hn]
  rw [hR]
  have key := libfsxfs_directory_get_entry_by_utf8_name_loop_cases A compare
    directory.entries_array string length directory_entry number_of_entries.toNat 0
  simp only [Nat.zero_add, Int.lt_toNat] at key
  exact key

/-- C4: both lookups by name, `libfsxfs_directory_get_entry_by_utf8_name` and
`libfsxfs_directory_get_entry_by_utf16_name`, on a directory whose entries are fetched with
index 0 up to the entry count.  When the entry count cannot be retrieved the result is -1.
Otherwise: the lookup returns 1 with `*directory_entry` set to an entry of the directory that
compares equal to the string if and only if such an entry exists and no fetch or comparison
before it failed; it returns 0 with `*directory_entry` set to NULL if and only if every entry
is fetched and compares neither equal nor failed; it returns -1, leaving `*directory_entry` as
it was, if and only if a fetch or a comparison fails at an entry before which none compared
equal or failed; and it ends in one of these three ways. -/
theorem libfsxfs_directory_get_entry_by_name_result
    (lookup : libcdata_array_calls → (libfsxfs_directory_entry_t → List Nat → Nat → Int) →
      Option libfsxfs_directory_t → List Nat → Nat → Option libfsxfs_directory_entry_t →
      Int × Option libfsxfs_directory_entry_t)
    (hl : lookup = libfsxfs_directory_get_entry_by_utf8_name
      ∨ lookup = libfsxfs_directory_get_entry_by_utf16_name)
    (A : libcdata_array_calls)
    (compare : libfsxfs_directory_entry_t → List Nat → Nat → Int)
    (directory : libfsxfs_directory_t) (string : List Nat) (length : Nat)
    (directory_entry : Option libfsxfs_directory_entry_t) :
    (A.get_number_of_entries directory.entries_array = none →
      lookup A compare (some directory) string length directory_entry = (-1, directory_entry))
    ∧ ∀ number_of_entries : Int,
      A.get_number_of_entries directory.entries_array = some number_of_entries →
      ((∃ (i : Nat) (e : libfsxfs_directory_entry_t), (i : Int) < number_of_entries
          ∧ A.get_entry_by_index directory.entries_array (i : Int) = some e
          ∧ compare e string length = LIBUNA_COMPARE_EQUAL
          ∧ lookup A compare (some directory) string length directory_entry = (1, some e))
        ↔ (∃ (i : Nat) (e : libfsxfs_directory_entry_t), (i : Int) < number_of_entries
          ∧ A.get_entry_by_index directory.entries_array (i : Int) = some e
          ∧ compare e string length = LIBUNA_COMPARE_EQUAL
          ∧ ∀ j : Nat, j < i →
            ∃ e, A.get_entry_by_index directory.entries_array (j : Int) = some e
            ∧ compare e string length ≠ -1))
      ∧ (lookup A compare (some directory) string length directory_entry = (0, none)
        ↔ ∀ i : Nat, (i : Int) < number_of_entries →
          ∃ e, A.get_entry_by_index directory.entries_array (i : Int) = some e
          ∧ compare e string length ≠ -1 ∧ compare e string length ≠ LIBUNA_COMPARE_EQUAL)
      ∧ (lookup A compare (some directory) string length directory_entry
            = (-1, directory_entry)
        ↔ ∃ i : Nat, (i : Int) < number_of_entries
          ∧ (A.get_entry_by_index directory.entries_array (i : Int) = none
            ∨ ∃ e, A.get_entry_by_index directory.entries_array (i : Int) = some e
              ∧ compare e string length = -1)
          ∧ ∀ j : Nat, j < i →
            ∃ e, A.get_entry_by_index directory.entries_array (j : Int) = some e
            ∧ compare e string length ≠ -1
            ∧ compare e string length ≠ LIBUNA_COMPARE_EQUAL)
      ∧ (lookup A compare (some directory) string length directory_entry = (0, none)
        ∨ lookup A compare (some directory) string length directory_entry
            = (-1, directory_entry)
        ∨ ∃ (i : Nat) (e : libfsxfs_directory_entry_t), (i : Int) < number_of_entries
          ∧ A.get_entry_by_index directory.entries_array (i : Int) = some e
          ∧ compare e string length = LIBUNA_COMPARE_EQUAL
          ∧ lookup A compare (some directory) string length directory_entry = (1, some e)) := by
  have hl2 : lookup = libfsxfs_directory_get_entry_by_utf8_name := by
    rcases hl with hl | hl
    · exact hl
    · rw [hl, libfsxfs_directory_get_entry_by_utf16_name_eq]
  subst hl2
  have hne : LIBUNA_COMPARE_EQUAL ≠ -1 := by decide
  refine ⟨?_, ?_⟩
  · intro hnone
    simp only [libfsxfs_directory_get_entry_by_utf8_name, hnone]
  · intro number_of_entries hn
    have cases3 := libfsxfs_directory_get_entry_by_utf8_name_cases A compare directory string
      length directory_entry number_of_entries hn
    refine ⟨⟨?_, ?_⟩, ⟨?_, ?_⟩, ⟨?_, ?_⟩, ?_⟩
    · rintro ⟨i, e, hi, hg, hc, hR⟩
      rcases cases3 with ⟨hR0, _⟩ | ⟨k, e2, hk, hR1, hg2, hc2, hall⟩ | ⟨k, hk, hR2, _, _⟩
      · rw [hR0] at hR; simp at hR
      · refine ⟨k, e2, hk, hg2, hc2, ?_⟩
        intro j hj
        obtain ⟨e3, h3, h4, _⟩ := hall j hj
        exact ⟨e3, h3, h4⟩
      · rw [hR2] at hR; simp at hR
    · rintro ⟨i, e, hi, hg, hc, hprev⟩
      rcases cases3 with ⟨_, hall⟩ | ⟨k, e2, hk, hR1, hg2, hc2, _⟩ | ⟨k, hk, _, hfail, hall⟩
      · obtain ⟨e3, h3, _, h5⟩ := hall i hi
        rw [hg] at h3
        cases h3
        exact absurd hc h5
      · exact ⟨k, e2, hk, hg2, hc2, hR1⟩
      · rcases Nat.lt_trichotomy k i with hki | hki | hki
        · obtain ⟨e3, h3, h4⟩ := hprev k hki
          rcases hfail with hf | ⟨e4, hf, hf2⟩
          · rw [hf] at h3; cases h3
          · rw [hf] at h3; cases h3; exact absurd hf2 h4
        · subst hki
          rcases hfail with hf | ⟨e4, hf, hf2⟩
          · rw [hf] at hg; cases hg
          · rw [hf] at hg; cases hg
            rw [hc] at hf2; exact absurd hf2 hne
        · obtain ⟨e3, h3, _, h5⟩ := hall i hki
          rw [hg] at h3; cases h3
          exact absurd hc h5
    · intro hR
      rcases cases3 with ⟨_, hall⟩ | ⟨k, e2, _, hR1, _⟩ | ⟨k, _, hR2, _⟩
      · exact hall
      · rw [hR1] at hR; simp at hR
      · rw [hR2] at hR; simp at hR
    · intro hall
      rcases cases3 with ⟨hR0, _⟩ | ⟨k, e2, hk, _, hg2, hc2, _⟩ | ⟨k, hk, _, hfail, _⟩
      · exact hR0
      · obtain ⟨e3, h3, _, h5⟩ := hall k hk
        rw [hg2] at h3; cases h3
        exact absurd hc2 h5
      · obtain ⟨e3, h3, h4, _⟩ := hall k hk
        rcases hfail with hf | ⟨e4, hf, hf2⟩
        · rw [hf] at h3; cases h3
        · rw [hf] at h3; cases h3; exact absurd hf2 h4
    · intro hR
      rcases cases3 with ⟨hR0, _⟩ | ⟨k, e2, _, hR1, _⟩ | ⟨k, hk, _, hfail, hall⟩
      · rw [hR0] at hR; simp at hR
      · rw [hR1] at hR; simp at hR
      · exact ⟨k, hk, hfail, hall⟩
    · rintro ⟨i, hi, hfail, hprev⟩
      rcases cases3 with ⟨_, hall⟩ | ⟨k, e2, hk, _, hg2, hc2, hall⟩ | ⟨k, _, hR2, _⟩
      · obtain ⟨e3, h3, h4, _⟩ := hall i hi
        rcases hfail with hf | ⟨e4, hf, hf2⟩
        · rw [hf] at h3; cases h3
        · rw [hf] at h3; cases h3; exact absurd hf2 h4
      · rcases Nat.lt_trichotomy k i with hki | hki | hki
        · obtain ⟨e3, h3, _, h5⟩ := hprev k hki
          rw [hg2] at h3; cases h3
          exact absurd hc2 h5
        · subst hki
          rcases hfail with hf | ⟨e4, hf, hf2⟩
          · rw [hf] at hg2; cases hg2
          · rw [hf] at hg2; cases hg2
            rw [hc2] at hf2; exact absurd hf2 hne
        · obtain ⟨e3, h3, h4, _⟩ := hall i hki
          rcases hfail with hf | ⟨e4, hf, hf2⟩
          · rw [hf] at h3; cases h3
          · rw [hf] at h3; cases h3; exact absurd hf2 h4
      · exact hR2
    · rcases cases3 with ⟨hR0, _⟩ | ⟨k, e2, hk, hR1, hg2, hc2, _⟩ | ⟨k, _, hR2, _⟩
      · exact Or.inl hR0
      · exact Or.inr (Or.inr ⟨k, e2, hk, hg2, hc2, hR1⟩)
      · exact Or.inr (Or.inl hR2)

/-- C4, at concrete inputs: in the directory with the entries `a`, `b`, `c` the UTF-16 lookup of
`b` returns 1 with the entry `b`, an entry of the directory that compares equal. -/
theorem libfsxfs_directory_get_entry_by_name_result_witness :
    (libfsxfs_directory_get_entry_by_utf16_name = libfsxfs_directory_get_entry_by_utf8_name
      ∨ libfsxfs_directory_get_entry_by_utf16_name = libfsxfs_directory_get_entry_by_utf16_name)
    ∧ libcdata.get_number_of_entries directory_abc.entries_array = some 3
    ∧ ∃ (i : Nat) (e : libfsxfs_directory_entry_t), (i : Int) < 3
      ∧ libcdata.get_entry_by_index directory_abc.entries_array (i : Int) = some e
      ∧ compare_name e [98] 1 = LIBUNA_COMPARE_EQUAL
      ∧ libfsxfs_directory_get_entry_by_utf16_name libcdata compare_name (some directory_abc)
          [98] 1 none = (1, some e) :=
  ⟨Or.inr rfl, rfl,
   (((libfsxfs_directory_get_entry_by_name_result libfsxfs_directory_get_entry_by_utf16_name
      (Or.inr rfl) libcdata compare_name directory_abc [98] 1 none).2 3 rfl).1).2
    ⟨1, entry_b, by decide, rfl, by decide, fun j hj => by
      have hj0 : j = 0 := by omega
      subst hj0
      exact ⟨entry_a, rfl, by decide⟩⟩⟩

/-! ## Reading the entries of a directory -/

/-- C5 (the code at the failing input): for a directory inode in extents format whose block
directory can be created, the one read of the byte source is at the fixed file offset
861 * 4096 = 3526656, whatever the extents of the inode and the block size are. -/
theorem libfsxfs_directory_read_file_io_handle_fixed_file_offset (d : Decoders)
    (directory : libfsxfs_directory_t) (io_handle : libfsxfs_io_handle_t)
    (file_io_handle : Option libbfio_handle_t) (inode : libfsxfs_inode_t)
    (hmode : inode.file_mode &&& 0xf000 = LIBFSXFS_FILE_TYPE_DIRECTORY)
    (hfork : inode.fork_type = LIBFSXFS_FORK_TYPE_EXTENTS)
    (hcreate : d.block_directory_create io_handle.block_size = 1) :
    (libfsxfs_directory_read_file_io_handle d (some directory) (some io_handle) file_io_handle
        (some inode)).calls.filterMap DecoderCall.read? = [(file_io_handle, 3526656)] := by
  have h1 : LIBFSXFS_FORK_TYPE_EXTENTS ≠ LIBFSXFS_FORK_TYPE_INLINE_DATA := by decide
  simp only [libfsxfs_directory_read_file_io_handle, hmode, hfork, hcreate, if_true, ne_eq,
    h1, not_false_eq_true, not_true_eq_false, and_false, and_true, if_false,
    libfsxfs_directory_read_file_io_handle_on_error]
  split_ifs <;> rfl

/-- C5, at the failing input: the data fork of the inode starts at the physical block 10 and the
block size is 4096, so the specification puts the block directory at file offset 40960; the
code reads at 3526656. -/
theorem libfsxfs_directory_read_file_io_handle_fixed_file_offset_witness :
    inode_block_10.file_mode &&& 0xf000 = LIBFSXFS_FILE_TYPE_DIRECTORY
    ∧ inode_block_10.fork_type = LIBFSXFS_FORK_TYPE_EXTENTS
    ∧ decoders_three_blocks.block_directory_create io_handle_4096.block_size = 1
    ∧ spec_block_directory_file_offset io_handle_4096 inode_block_10 = some 40960
    ∧ (libfsxfs_directory_read_file_io_handle decoders_three_blocks
        (some { entries_array := [] }) (some io_handle_4096) (some { id := 7 })
        (some inode_block_10)).calls.filterMap DecoderCall.read?
        = [(some { id := 7 }, 3526656)] :=
  ⟨by decide, rfl, rfl, by decide,
   libfsxfs_directory_read_file_io_handle_fixed_file_offset decoders_three_blocks
    { entries_array := [] } io_handle_4096 (some { id := 7 }) inode_block_10 (by decide) rfl
    rfl⟩

/-- C6 (as stated, refuted): a directory inode in extents format with two data blocks, the
physical blocks 861 and 862.  Decoding every data block in logical order gives the entries `b`
and `c`; `libfsxfs_directory_read_file_io_handle` succeeds with one read and the entry `b`
only. -/
theorem libfsxfs_directory_read_file_io_handle_reads_one_block_of_two :
    spec_data_block_offsets io_handle_4096 8388608 inode_two_data_blocks = [3526656, 3530752]
    ∧ spec_read_data_blocks decoders_three_blocks io_handle_4096 (some { id := 7 })
        (spec_data_block_offsets io_handle_4096 8388608 inode_two_data_blocks) []
        = (1, [entry_b, entry_c])
    ∧ libfsxfs_directory_read_file_io_handle decoders_three_blocks
        (some { entries_array := [] }) (some io_handle_4096) (some { id := 7 })
        (some inode_two_data_blocks)
        = { result := 1,
            directory := some { entries_array := [entry_b] },
            calls := [.block_directory_create 4096,
                      .block_directory_read_file_io_handle (some { id := 7 }) 3526656] } := by
  refine ⟨?_, ?_, ?_⟩ <;> decide

/-- C6 (amended): for a directory inode in extents format, with one extent or with many,
`libfsxfs_directory_read_file_io_handle` reads the byte source at most once; when it succeeds
it has made exactly one block directory read and the entries are those that one read left in
the array, so that the other data blocks of a leaf-form directory are not decoded. -/
theorem libfsxfs_directory_read_file_io_handle_single_block_read (d : Decoders)
    (directory : libfsxfs_directory_t) (io_handle : libfsxfs_io_handle_t)
    (file_io_handle : Option libbfio_handle_t) (inode : libfsxfs_inode_t)
    (hmode : inode.file_mode &&& 0xf000 = LIBFSXFS_FILE_TYPE_DIRECTORY)
    (hfork : inode.fork_type = LIBFSXFS_FORK_TYPE_EXTENTS) :
    ((libfsxfs_directory_read_file_io_handle d (some directory) (some io_handle)
          file_io_handle (some inode)).calls.filterMap DecoderCall.read?).length ≤ 1
    ∧ ((libfsxfs_directory_read_file_io_handle d (some directory) (some io_handle)
          file_io_handle (some inode)).result = 1 →
        ∃ file_offset : Int,
          (libfsxfs_directory_read_file_io_handle d (some directory) (some io_handle)
            file_io_handle (some inode)).calls.filterMap DecoderCall.read?
            = [(file_io_handle, file_offset)]
          ∧ (libfsxfs_directory_read_file_io_handle d (some directory) (some io_handle)
              file_io_handle (some inode)).directory
            = some { entries_array :=
                (d.block_directory_read_file_io_handle io_handle file_io_handle file_offset
                  directory.entries_array).2 }) := by
  have h1 : LIBFSXFS_FORK_TYPE_EXTENTS ≠ LIBFSXFS_FORK_TYPE_INLINE_DATA := by decide
  refine ⟨?_, ?_⟩
  · simp only [libfsxfs_directory_read_file_io_handle, hmode, hfork, if_true, ne_eq,
      h1, not_false_eq_true, not_true_eq_false, and_false, and_true, if_false,
      libfsxfs_directory_read_file_io_handle_on_error]
    split_ifs <;> simp [DecoderCall.read?]
  · simp only [libfsxfs_directory_read_file_io_handle, hmode, hfork, if_true, ne_eq,
      h1, not_false_eq_true, not_true_eq_false, and_false, and_true, if_false,
      libfsxfs_directory_read_file_io_handle_on_error]
    split_ifs
    · intro _
      exact ⟨861 * 4096, rfl, rfl⟩
    all_goals intro h; simp at h

/-- C6 (amended), at concrete inputs: the inode with the data blocks 861 and 862 is read with
one block directory read, and the entries are those of that read. -/
theorem libfsxfs_directory_read_file_io_handle_single_block_read_witness :
    inode_two_data_blocks.file_mode &&& 0xf000 = LIBFSXFS_FILE_TYPE_DIRECTORY
    ∧ inode_two_data_blocks.fork_type = LIBFSXFS_FORK_TYPE_EXTENTS
    ∧ (libfsxfs_directory_read_file_io_handle decoders_three_blocks
        (some { entries_array := [] }) (some io_handle_4096) (some { id := 7 })
        (some inode_two_data_blocks)).result = 1
    ∧ ∃ file_offset : Int,
        (libfsxfs_directory_read_file_io_handle decoders_three_blocks
          (some { entries_array := [] }) (some io_handle_4096) (some { id := 7 })
          (some inode_two_data_blocks)).calls.filterMap DecoderCall.read?
          = [(some { id := 7 }, file_offset)]
        ∧ (libfsxfs_directory_read_file_io_handle decoders_three_blocks
            (some { entries_array := [] }) (some io_handle_4096) (some { id := 7 })
            (some inode_two_data_blocks)).directory
          = some { entries_array :=
              (decoders_three_blocks.block_directory_read_file_io_handle io_handle_4096
                (some { id := 7 }) file_offset []).2 } :=
  ⟨by decide, rfl, by decide,
   (libfsxfs_directory_read_file_io_handle_single_block_read decoders_three_blocks
      { entries_array := [] } io_handle_4096 (some { id := 7 }) inode_two_data_blocks
      (by decide) rfl).2 (by decide)⟩

/-- The function returns 1 or -1, and -1 only through `on_error`, which empties the array. -/
theorem libfsxfs_directory_read_file_io_handle_result (d : Decoders)
    (directory : libfsxfs_directory_t) (io_handle : libfsxfs_io_handle_t)
    (file_io_handle : Option libbfio_handle_t) (inode : libfsxfs_inode_t) :
    (libfsxfs_directory_read_file_io_handle d (some directory) (some io_handle) file_io_handle
        (some inode)).result = 1
    ∨ ((libfsxfs_directory_read_file_io_handle d (some directory) (some io_handle)
          file_io_handle (some inode)).result = -1
      ∧ (libfsxfs_directory_read_file_io_handle d (some directory) (some io_handle)
          file_io_handle (some inode)).directory = some { entries_array := [] }) := by
  simp only [libfsxfs_directory_read_file_io_handle,
    libfsxfs_directory_read_file_io_handle_on_error, libcdata_array_empty]
  split_ifs <;> simp

/-- C7: whenever `libfsxfs_directory_read_file_io_handle` fails after its argument checks, it
returns -1 and the entries array is empty: `libfsxfs_directory_get_number_of_entries` gives 0
and `libfsxfs_directory_get_entry_by_index` returns -1 for every index, so that no entry
decoded before the failure is visible. -/
theorem libfsxfs_directory_read_file_io_handle_failure_leaves_no_entries (d : Decoders)
    (directory : libfsxfs_directory_t) (io_handle : libfsxfs_io_handle_t)
    (file_io_handle : Option libbfio_handle_t) (inode : libfsxfs_inode_t)
    (hfail : (libfsxfs_directory_read_file_io_handle d (some directory) (some io_handle)
      file_io_handle (some inode)).result ≠ 1) :
    (libfsxfs_directory_read_file_io_handle d (some directory) (some io_handle) file_io_handle
        (some inode)).result = -1
    ∧ (libfsxfs_directory_read_file_io_handle d (some directory) (some io_handle)
        file_io_handle (some inode)).directory = some { entries_array := [] }
    ∧ libfsxfs_directory_get_number_of_entries libcdata
        (libfsxfs_directory_read_file_io_handle d (some directory) (some io_handle)
          file_io_handle (some inode)).directory = (1, some 0)
    ∧ ∀ entry_index : Int,
        libfsxfs_directory_get_entry_by_index libcdata
          (libfsxfs_directory_read_file_io_handle d (some directory) (some io_handle)
            file_io_handle (some inode)).directory entry_index = (-1, none) := by
  rcases libfsxfs_directory_read_file_io_handle_result d directory io_handle file_io_handle
    inode with h | ⟨h1, h2⟩
  · exact absurd h hfail
  · refine ⟨h1, h2, ?_, ?_⟩
    · rw [h2]; rfl
    · intro entry_index
      rw [h2]
      simp [libfsxfs_directory_get_entry_by_index, libcdata]

/-- C7, at concrete inputs: the shortform table appends the entry `a` and then fails; the read
returns -1 and the directory, which held the entry `b` before, has no entry left. -/
theorem libfsxfs_directory_read_file_io_handle_failure_leaves_no_entries_witness :
    (libfsxfs_directory_read_file_io_handle decoders_table_fails
        (some { entries_array := [entry_b] }) (some io_handle_4096) (some { id := 7 })
        (some inode_inline)).result ≠ 1
    ∧ (libfsxfs_directory_read_file_io_handle decoders_table_fails
        (some { entries_array := [entry_b] }) (some io_handle_4096) (some { id := 7 })
        (some inode_inline)).result = -1
    ∧ (libfsxfs_directory_read_file_io_handle decoders_table_fails
        (some { entries_array := [entry_b] }) (some io_handle_4096) (some { id := 7 })
        (some inode_inline)).directory = some { entries_array := [] } :=
  ⟨by decide,
   (libfsxfs_directory_read_file_io_handle_failure_leaves_no_entries decoders_table_fails
      { entries_array := [entry_b] } io_handle_4096 (some { id := 7 }) inode_inline
      (by decide)).1,
   (libfsxfs_directory_read_file_io_handle_failure_leaves_no_entries decoders_table_fails
      { entries_array := [entry_b] } io_handle_4096 (some { id := 7 }) inode_inline
      (by decide)).2.1⟩

/-- C8 (as stated, refuted): with the abort flag set, the read of a directory inode in extents
format is not cut short: the block directory is created, the byte source is read, an entry is
decoded and the function returns 1. -/
theorem libfsxfs_directory_read_file_io_handle_decodes_when_aborted :
    io_handle_4096_aborted.abort = true
    ∧ libfsxfs_directory_read_file_io_handle decoders_three_blocks
        (some { entries_array := [] }) (some io_handle_4096_aborted) (some { id := 7 })
        (some inode_block_10)
        = { result := 1,
            directory := some { entries_array := [entry_b] },
            calls := [.block_directory_create 4096,
                      .block_directory_read_file_io_handle (some { id := 7 }) 3526656] } := by
  refine ⟨rfl, ?_⟩
  decide

/-- C8 (amended): `libfsxfs_directory_read_file_io_handle` does not consult the abort flag.  The
decoder calls it makes, the reads of the byte source among them, are the same with the flag set
as with the flag clear; and when the two decoders it hands the IO handle to do not depend on
the flag either, its return value and the entries are the same as well. -/
theorem libfsxfs_directory_read_file_io_handle_ignores_abort (d : Decoders)
    (directory : Option libfsxfs_directory_t) (block_size : Nat)
    (file_io_handle : Option libbfio_handle_t) (inode : Option libfsxfs_inode_t) :
    (libfsxfs_directory_read_file_io_handle d directory
        (some { block_size := block_size, abort := true }) file_io_handle inode).calls
      = (libfsxfs_directory_read_file_io_handle d directory
        (some { block_size := block_size, abort := false }) file_io_handle inode).calls
    ∧ ((∀ data data_size entries,
          d.directory_table_read_data { block_size := block_size, abort := true } data
            data_size entries
          = d.directory_table_read_data { block_size := block_size, abort := false } data
            data_size entries) →
        (∀ handle file_offset entries,
          d.block_directory_read_file_io_handle { block_size := block_size, abort := true }
            handle file_offset entries
          = d.block_directory_read_file_io_handle { block_size := block_size, abort := false }
            handle file_offset entries) →
        libfsxfs_directory_read_file_io_handle d directory
            (some { block_size := block_size, abort := true }) file_io_handle inode
          = libfsxfs_directory_read_file_io_handle d directory
            (some { block_size := block_size, abort := false }) file_io_handle inode) := by
  refine ⟨?_, ?_⟩
  · cases directory with
    | none => rfl
    | some directory =>
      cases inode with
      | none => rfl
      | some inode =>
        simp only [libfsxfs_directory_read_file_io_handle,
          libfsxfs_directory_read_file_io_handle_on_error]
        split_ifs <;> rfl
  · intro htable hblock
    cases directory with
    | none => rfl
    | some directory =>
      cases inode with
      | none => rfl
      | some inode =>
        simp only [libfsxfs_directory_read_file_io_handle, htable, hblock]

/-- C8 (amended), at concrete inputs: the decoders of the three-block byte source do not look at
the IO handle, and the read of the inline directory gives the same outcome with the abort flag
set as with it clear. -/
theorem libfsxfs_directory_read_file_io_handle_ignores_abort_witness :
    (∀ data data_size entries,
      decoders_three_blocks.directory_table_read_data { block_size := 4096, abort := true }
        data data_size entries
      = decoders_three_blocks.directory_table_read_data { block_size := 4096, abort := false }
        data data_size entries)
    ∧ (∀ handle file_offset entries,
      decoders_three_blocks.block_directory_read_file_io_handle
        { block_size := 4096, abort := true } handle file_offset entries
      = decoders_three_blocks.block_directory_read_file_io_handle
        { block_size := 4096, abort := false } handle file_offset entries)
    ∧ libfsxfs_directory_read_file_io_handle decoders_three_blocks
        (some { entries_array := [] }) (some { block_size := 4096, abort := true })
        (some { id := 7 }) (some inode_inline)
      = libfsxfs_directory_read_file_io_handle decoders_three_blocks
        (some { entries_array := [] }) (some { block_size := 4096, abort := false })
        (some { id := 7 }) (some inode_inline) :=
  ⟨fun _ _ _ => rfl, fun _ _ _ => rfl,
   (libfsxfs_directory_read_file_io_handle_ignores_abort decoders_three_blocks
      (some { entries_array := [] }) 4096 (some { id := 7 }) (some inode_inline)).2
      (fun _ _ _ => rfl) (fun _ _ _ => rfl)⟩

/-! ## The label of the volume -/

/-- C11: `get_label` returns None exactly when the size call does not fail and either returns 0
(no label) or gives the size 0; it raises IOError when the size call fails (result -1) or the
label call does not return 1; and otherwise, the buffer being allocated, it returns the Unicode
string decoded from the first `utf8_string_size - 1` bytes of the label buffer. -/
theorem pyfsxfs_volume_get_label_result (lib : LabelCalls) (v : pyfsxfs_volume_t) :
    ((pyfsxfs_volume_get_label lib (some v)).result = .object .None
      ↔ (lib.libfsxfs_volume_get_utf8_label_size v.volume).1 ≠ -1
        ∧ ((lib.libfsxfs_volume_get_utf8_label_size v.volume).1 = 0
          ∨ (lib.libfsxfs_volume_get_utf8_label_size v.volume).2 = 0))
    ∧ ((lib.libfsxfs_volume_get_utf8_label_size v.volume).1 = -1 →
        (pyfsxfs_volume_get_label lib (some v)).result = .raised .IOError)
    ∧ ((lib.libfsxfs_volume_get_utf8_label_size v.volume).1 ≠ -1 →
        (lib.libfsxfs_volume_get_utf8_label_size v.volume).1 ≠ 0 →
        (lib.libfsxfs_volume_get_utf8_label_size v.volume).2 ≠ 0 →
        lib.PyMem_Malloc (lib.libfsxfs_volume_get_utf8_label_size v.volume).2 = true →
        ((lib.libfsxfs_volume_get_utf8_label v.volume
              (lib.libfsxfs_volume_get_utf8_label_size v.volume).2).1 ≠ 1 →
            (pyfsxfs_volume_get_label lib (some v)).result = .raised .IOError)
        ∧ ((lib.libfsxfs_volume_get_utf8_label v.volume
              (lib.libfsxfs_volume_get_utf8_label_size v.volume).2).1 = 1 →
            ∀ string_object,
              lib.PyUnicode_DecodeUTF8
                  ((lib.libfsxfs_volume_get_utf8_label v.volume
                      (lib.libfsxfs_volume_get_utf8_label_size v.volume).2).2.take
                    ((lib.libfsxfs_volume_get_utf8_label_size v.volume).2 - 1))
                = some string_object →
              (pyfsxfs_volume_get_label lib (some v)).result
                = .object (.unicode string_object))) := by
  refine ⟨?_, ?_, ?_⟩
  · simp only [pyfsxfs_volume_get_label]
    split_ifs with h1 h2 h3 h4
    · simp [h1]
    · simp [h1, h2]
    · simp [h1, h2]
    · simp [h1, h2]
    · split <;> simp [h1, h2]
  · intro h1
    simp only [pyfsxfs_volume_get_label, h1, if_true]
  · intro h1 h2 h3 h4
    have h23 : ¬((lib.libfsxfs_volume_get_utf8_label_size v.volume).1 = 0
        ∨ (lib.libfsxfs_volume_get_utf8_label_size v.volume).2 = 0) := by
      rintro (h | h)
      · exact h2 h
      · exact h3 h
    constructor
    · intro h5
      simp only [pyfsxfs_volume_get_label, h1, h23, h4, h5, if_false, if_true, ne_eq,
        not_false_eq_true, Bool.true_eq_false]
    · intro h5 string_object h6
      simp only [pyfsxfs_volume_get_label, h1, h23, h4, h5, h6, if_false, ne_eq,
        not_true_eq_false, Bool.true_eq_false]

/-- C11, at concrete inputs: the volume labelled `XFS-TEST` (size 9 with the NUL) gives the
eight characters without the NUL. -/
theorem pyfsxfs_volume_get_label_result_witness :
    (label_calls_xfs_test.libfsxfs_volume_get_utf8_label_size fresh_volume.volume).1 ≠ -1
    ∧ (label_calls_xfs_test.libfsxfs_volume_get_utf8_label_size fresh_volume.volume).1 ≠ 0
    ∧ (label_calls_xfs_test.libfsxfs_volume_get_utf8_label_size fresh_volume.volume).2 ≠ 0
    ∧ label_calls_xfs_test.PyMem_Malloc
        (label_calls_xfs_test.libfsxfs_volume_get_utf8_label_size fresh_volume.volume).2 = true
    ∧ (pyfsxfs_volume_get_label label_calls_xfs_test (some fresh_volume)).result
        = .object (.unicode [88, 70, 83, 45, 84, 69, 83, 84])
    ∧ (pyfsxfs_volume_get_label label_calls_no_label (some fresh_volume)).result
        = .object .None
    ∧ (pyfsxfs_volume_get_label label_calls_size_error (some fresh_volume)).result
        = .raised .IOError :=
  ⟨by decide, by decide, by decide, rfl,
   ((pyfsxfs_volume_get_label_result label_calls_xfs_test fresh_volume).2.2 (by decide)
      (by decide) (by decide) rfl).2 rfl [88, 70, 83, 45, 84, 69, 83, 84] rfl,
   (pyfsxfs_volume_get_label_result label_calls_no_label fresh_volume).1.2
      ⟨by decide, Or.inl rfl⟩,
   (pyfsxfs_volume_get_label_result label_calls_size_error fresh_volume).2.1 rfl⟩

/-! ## The entries of a directory by index -/

theorem libcdata_array_append_entry_foldl (entries start : List libfsxfs_directory_entry_t) :
    entries.foldl libcdata_array_append_entry start = start ++ entries := by
  induction entries generalizing start with
  | nil => simp
  | cons e rest ih => simp [List.foldl, ih, libcdata_array_append_entry]

/-- C12: for a directory whose array was filled by appending the entries `e_0 … e_{n-1}` in
that order to the empty array, `libfsxfs_directory_get_number_of_entries` returns 1 with the
count `n`; `libfsxfs_directory_get_entry_by_index` returns 1 with exactly `e_i` for every index
`i` with `0 ≤ i < n`, and -1 for every index outside that range. -/
theorem libfsxfs_directory_get_entry_by_index_appended
    (entries : List libfsxfs_directory_entry_t) :
    libfsxfs_directory_get_number_of_entries libcdata
        (some { entries_array := entries.foldl libcdata_array_append_entry [] })
      = (1, some (entries.length : Int))
    ∧ (∀ (i : Nat) (hi : i < entries.length),
        libfsxfs_directory_get_entry_by_index libcdata
            (some { entries_array := entries.foldl libcdata_array_append_entry [] }) (i : Int)
          = (1, some (entries.get ⟨i, hi⟩)))
    ∧ (∀ entry_index : Int, entry_index < 0 ∨ (entries.length : Int) ≤ entry_index →
        libfsxfs_directory_get_entry_by_index libcdata
            (some { entries_array := entries.foldl libcdata_array_append_entry [] })
            entry_index
          = (-1, none)) := by
  rw [libcdata_array_append_entry_foldl, List.nil_append]
  refine ⟨rfl, ?_, ?_⟩
  · intro i hi
    have h0 : ¬ ((i : Int) < 0) := by omega
    have hget : entries.get? ((i : Int).toNat) = some (entries.get ⟨i, hi⟩) := by
      rw [Int.toNat_ofNat]
      exact List.get?_eq_get hi
    simp only [libfsxfs_directory_get_entry_by_index, libcdata, h0, if_false, hget]
  · intro entry_index h
    rcases h with h | h
    · simp only [libfsxfs_directory_get_entry_by_index, libcdata, h, if_true]
    · have h0 : ¬ entry_index < 0 := by omega
      have hlen : entries.length ≤ entry_index.toNat := by omega
      have hget : entries.get? entry_index.toNat = none := List.get?_eq_none.2 hlen
      simp only [libfsxfs_directory_get_entry_by_index, libcdata, h0, if_false, hget]

/-- C12, at concrete inputs: after `a`, `b`, `c` were appended, the count is 3, index 1 gives
`b`, and the indexes 3 and -1 give -1. -/
theorem libfsxfs_directory_get_entry_by_index_appended_witness :
    (1 : Nat) < [entry_a, entry_b, entry_c].length
    ∧ ((3 : Int) < 0 ∨ (([entry_a, entry_b, entry_c].length : Nat) : Int) ≤ 3)
    ∧ libfsxfs_directory_get_entry_by_index libcdata
        (some { entries_array :=
          [entry_a, entry_b, entry_c].foldl libcdata_array_append_entry [] }) ((1 : Nat) : Int)
        = (1, some entry_b)
    ∧ libfsxfs_directory_get_entry_by_index libcdata
        (some { entries_array :=
          [entry_a, entry_b, entry_c].foldl libcdata_array_append_entry [] }) 3
        = (-1, none) :=
  ⟨by decide, Or.inr (by decide),
   (libfsxfs_directory_get_entry_by_index_appended [entry_a, entry_b, entry_c]).2.1 1
      (by decide),
   (libfsxfs_directory_get_entry_by_index_appended [entry_a, entry_b, entry_c]).2.2 3
      (Or.inr (by decide))⟩

/-! ## What `close` does to the byte source -/

/-- C13: when `libfsxfs_volume_close` returns 0 and the handle is freed
(`libbfio_handle_free` returns 1), `close()` returns None, `libbfio_handle_free` has been
called on the handle and `file_io_handle` is NULL afterwards; when `libfsxfs_volume_close` does
not return 0, `close()` raises IOError, frees nothing and leaves the volume object, its
`file_io_handle` included, as it was. -/
theorem pyfsxfs_volume_close_releases_byte_source (lib : Library) (v : pyfsxfs_volume_t) :
    (lib.libfsxfs_volume_close v.volume = 0 →
      ∀ h, v.file_io_handle = some h → lib.libbfio_handle_free h = 1 →
        pyfsxfs_volume_close lib (some v)
          = { result := .object .None,
              pyfsxfs_volume := some { volume := v.volume, file_io_handle := none },
              calls := [.libfsxfs_volume_close, .libbfio_handle_free h],
              freed_file_entries := [] })
    ∧ (lib.libfsxfs_volume_close v.volume ≠ 0 →
        pyfsxfs_volume_close lib (some v)
          = { result := .raised .IOError, pyfsxfs_volume := some v,
              calls := [.libfsxfs_volume_close], freed_file_entries := [] }) := by
  constructor
  · intro hc h hh hf
    simp [pyfsxfs_volume_close, hc, hh, hf]
  · intro hc
    simp [pyfsxfs_volume_close, hc]

/-- C13, at concrete inputs: a volume that holds the byte source 7 is closed; with a library
that closes, the handle is freed and the pointer NULL; with a library whose close fails, IOError
is raised and the handle is still set. -/
theorem pyfsxfs_volume_close_releases_byte_source_witness :
    library_success.libfsxfs_volume_close volume_with_handle.volume = 0
    ∧ volume_with_handle.file_io_handle = some { id := 7 }
    ∧ library_success.libbfio_handle_free { id := 7 } = 1
    ∧ library_close_error.libfsxfs_volume_close volume_with_handle.volume ≠ 0
    ∧ pyfsxfs_volume_close library_success (some volume_with_handle)
        = { result := .object .None,
            pyfsxfs_volume := some { volume := some 1, file_io_handle := none },
            calls := [.libfsxfs_volume_close, .libbfio_handle_free { id := 7 }],
            freed_file_entries := [] }
    ∧ pyfsxfs_volume_close library_close_error (some volume_with_handle)
        = { result := .raised .IOError, pyfsxfs_volume := some volume_with_handle,
            calls := [.libfsxfs_volume_close], freed_file_entries := [] } :=
  ⟨rfl, rfl, rfl, by decide,
   (pyfsxfs_volume_close_releases_byte_source library_success volume_with_handle).1 rfl
      { id := 7 } rfl rfl,
   (pyfsxfs_volume_close_releases_byte_source library_close_error volume_with_handle).2
      (by decide)⟩

/-! ## The attributes `open_file_object` asks of the file object -/

/-- C14: a file object without a `read` or without a `seek` attribute is never accepted by
`open_file_object`: the call raises, makes no call at all (no file IO handle is created, the
library open is not called) and leaves the volume object as it was.  The exception is TypeError
whenever the mode passes the mode check, which comes first. -/
theorem pyfsxfs_volume_open_file_object_requires_read_and_seek (lib : Library)
    (v : pyfsxfs_volume_t) (file_object : PyArgument) (mode : Option (List Char))
    (hattr : file_object.has_attr_read ≠ 1 ∨ file_object.has_attr_seek ≠ 1) :
    (∃ e, (pyfsxfs_volume_open_file_object lib (some v) (some (file_object, mode))).result
        = .raised e)
    ∧ (pyfsxfs_volume_open_file_object lib (some v) (some (file_object, mode))).calls = []
    ∧ (pyfsxfs_volume_open_file_object lib (some v) (some (file_object, mode))).pyfsxfs_volume
        = some v
    ∧ (mode_is_unsupported mode = false →
        (pyfsxfs_volume_open_file_object lib (some v) (some (file_object, mode))).result
          = .raised .TypeError) := by
  by_cases hm : mode_is_unsupported mode = true
  · simp [pyfsxfs_volume_open_file_object, hm]
  · have hm2 : mode_is_unsupported mode = false := by simpa using hm
    by_cases hr : file_object.has_attr_read = 1
    · have hs : file_object.has_attr_seek ≠ 1 := by
        rcases hattr with h | h
        · exact absurd hr h
        · exact h
      simp [pyfsxfs_volume_open_file_object, hm2, hr, hs]
    · simp [pyfsxfs_volume_open_file_object, hm2, hr]

/-- C14, at concrete inputs: an object with `read` and without `seek`, mode omitted: TypeError,
no call, the volume untouched. -/
theorem pyfsxfs_volume_open_file_object_requires_read_and_seek_witness :
    (file_object_without_seek.has_attr_read ≠ 1 ∨ file_object_without_seek.has_attr_seek ≠ 1)
    ∧ mode_is_unsupported none = false
    ∧ (pyfsxfs_volume_open_file_object library_success (some fresh_volume)
        (some (file_object_without_seek, none))).result = .raised .TypeError
    ∧ (pyfsxfs_volume_open_file_object library_success (some fresh_volume)
        (some (file_object_without_seek, none))).calls = []
    ∧ (pyfsxfs_volume_open_file_object library_success (some fresh_volume)
        (some (file_object_without_seek, none))).pyfsxfs_volume = some fresh_volume :=
  ⟨Or.inr (by decide), rfl,
   (pyfsxfs_volume_open_file_object_requires_read_and_seek library_success fresh_volume
      file_object_without_seek none (Or.inr (by decide))).2.2.2 rfl,
   (pyfsxfs_volume_open_file_object_requires_read_and_seek library_success fresh_volume
      file_object_without_seek none (Or.inr (by decide))).2.1,
   (pyfsxfs_volume_open_file_object_requires_read_and_seek library_success fresh_volume
      file_object_without_seek none (Or.inr (by decide))).2.2.1⟩

/-! ## The root directory -/

/-- C17 (the code at the failing input): whenever `libfsxfs_volume_get_root_directory` returns
0, `get_root_directory` takes its branch for `result == 0`: it raises nothing and returns None,
where its docstring promises an object.  For every other result of the library the method does
what the claim says: whatever it returns without raising is a file entry object that wraps the
entry the library stored, with the volume object as its parent, and that object is returned
when the library returns 1 with an entry and the Python object can be created. -/
theorem pyfsxfs_volume_get_root_directory_none_on_result_zero (lib : Library)
    (v : pyfsxfs_volume_t) :
    ((lib.libfsxfs_volume_get_root_directory v.volume).1 = 0 →
      pyfsxfs_volume_get_root_directory lib (some v)
        = { result := .object .None, pyfsxfs_volume := some v, calls := [],
            freed_file_entries := [] })
    ∧ ((lib.libfsxfs_volume_get_root_directory v.volume).1 ≠ 0 →
        ∀ o, (pyfsxfs_volume_get_root_directory lib (some v)).result = .object o →
          ∃ root_directory,
            (lib.libfsxfs_volume_get_root_directory v.volume).2 = some root_directory
            ∧ o = .file_entry { file_entry := root_directory, parent_object := v })
    ∧ (∀ root_directory,
        lib.libfsxfs_volume_get_root_directory v.volume = (1, some root_directory) →
        lib.file_entry_object_available = true →
        (pyfsxfs_volume_get_root_directory lib (some v)).result
          = .object (.file_entry { file_entry := root_directory, parent_object := v })) := by
  refine ⟨?_, ?_, ?_⟩
  · intro h
    simp [pyfsxfs_volume_get_root_directory, h]
  · intro hne o
    simp only [pyfsxfs_volume_get_root_directory]
    split_ifs with h1
    · simp [pyfsxfs_volume_lookup_on_error]
    · simp only [pyfsxfs_volume_lookup_wrap, pyfsxfs_volume_lookup_on_error,
        pyfsxfs_file_entry_new]
      cases hfe : (lib.libfsxfs_volume_get_root_directory v.volume).2 with
      | none => simp
      | some root_directory =>
        by_cases ha : lib.file_entry_object_available = true
        · simp only [ha, if_true]
          intro h
          refine ⟨root_directory, rfl, ?_⟩
          simpa using h.symm
        · simp [ha]
  · intro root_directory h ha
    simp [pyfsxfs_volume_get_root_directory, h, pyfsxfs_volume_lookup_wrap,
      pyfsxfs_file_entry_new, ha]

/-- C17, at the failing input: a library whose `libfsxfs_volume_get_root_directory` returns 0
and stores no entry; `get_root_directory` returns None and raises nothing. -/
theorem pyfsxfs_volume_get_root_directory_none_on_result_zero_witness :
    (library_no_root_directory.libfsxfs_volume_get_root_directory fresh_volume.volume).1 = 0
    ∧ pyfsxfs_volume_get_root_directory library_no_root_directory (some fresh_volume)
      = { result := .object .None, pyfsxfs_volume := some fresh_volume, calls := [],
          freed_file_entries := [] } :=
  ⟨rfl,
   (pyfsxfs_volume_get_root_directory_none_on_result_zero library_no_root_directory
      fresh_volume).1 rfl⟩

/-! ## Reading an inline directory -/

/-- C15: for a directory inode whose data fork is inline, the only decoder that
`libfsxfs_directory_read_file_io_handle` runs is the directory table, on `inode->inline_data`
with the size `inode->size`; the byte source is not read, and the whole outcome (return value,
entries, calls) is the same for any two `file_io_handle` arguments. -/
theorem libfsxfs_directory_read_file_io_handle_inline (d : Decoders)
    (directory : libfsxfs_directory_t) (io_handle : libfsxfs_io_handle_t)
    (inode : libfsxfs_inode_t)
    (hmode : inode.file_mode &&& 0xf000 = LIBFSXFS_FILE_TYPE_DIRECTORY)
    (hfork : inode.fork_type = LIBFSXFS_FORK_TYPE_INLINE_DATA) :
    (∀ file_io_handle other_file_io_handle : Option libbfio_handle_t,
      libfsxfs_directory_read_file_io_handle d (some directory) (some io_handle)
          file_io_handle (some inode)
        = libfsxfs_directory_read_file_io_handle d (some directory) (some io_handle)
          other_file_io_handle (some inode))
    ∧ (∀ file_io_handle : Option libbfio_handle_t,
        (libfsxfs_directory_read_file_io_handle d (some directory) (some io_handle)
            file_io_handle (some inode)).calls.filterMap DecoderCall.read? = []
        ∧ (d.directory_table_create = 1 →
            (libfsxfs_directory_read_file_io_handle d (some directory) (some io_handle)
                file_io_handle (some inode)).calls
              = [.directory_table_create,
                 .directory_table_read_data inode.inline_data inode.size]
            ∧ ((d.directory_table_read_data io_handle inode.inline_data inode.size
                    directory.entries_array).1 = 1 →
                d.directory_table_release = 1 →
                libfsxfs_directory_read_file_io_handle d (some directory) (some io_handle)
                    file_io_handle (some inode)
                  = { result := 1,
                      directory := some { entries_array :=
                        (d.directory_table_read_data io_handle inode.inline_data inode.size
                          directory.entries_array).2 },
                      calls := [.directory_table_create,
                        .directory_table_read_data inode.inline_data inode.size] }))) := by
  have h1 : LIBFSXFS_FORK_TYPE_INLINE_DATA ≠ LIBFSXFS_FORK_TYPE_EXTENTS := by decide
  refine ⟨fun _ _ => ?_, fun file_io_handle => ⟨?_, fun hcreate => ⟨?_, fun hread hfree => ?_⟩⟩⟩
  · simp only [libfsxfs_directory_read_file_io_handle, hmode, hfork, if_true, ne_eq,
      h1, not_false_eq_true, not_true_eq_false, and_true, false_and, if_false]
  · simp only [libfsxfs_directory_read_file_io_handle, hmode, hfork, if_true, ne_eq,
      h1, not_false_eq_true, not_true_eq_false, and_true, false_and, if_false,
      libfsxfs_directory_read_file_io_handle_on_error]
    split_ifs <;> simp [DecoderCall.read?]
  · simp only [libfsxfs_directory_read_file_io_handle, hmode, hfork, hcreate, if_true, ne_eq,
      h1, not_false_eq_true, not_true_eq_false, and_true, false_and, if_false,
      libfsxfs_directory_read_file_io_handle_on_error]
    split_ifs <;> rfl
  · simp only [libfsxfs_directory_read_file_io_handle, hmode, hfork, hcreate, hread, hfree,
      if_true, ne_eq, h1, not_false_eq_true, not_true_eq_false, and_true, false_and, if_false]

/-- C15, at concrete inputs: the inline directory inode is decoded from its six inline bytes
without a read, with the same outcome for the byte source 7 and for no byte source at all. -/
theorem libfsxfs_directory_read_file_io_handle_inline_witness :
    inode_inline.file_mode &&& 0xf000 = LIBFSXFS_FILE_TYPE_DIRECTORY
    ∧ inode_inline.fork_type = LIBFSXFS_FORK_TYPE_INLINE_DATA
    ∧ decoders_three_blocks.directory_table_create = 1
    ∧ libfsxfs_directory_read_file_io_handle decoders_three_blocks
        (some { entries_array := [] }) (some io_handle_4096) (some { id := 7 })
        (some inode_inline)
      = libfsxfs_directory_read_file_io_handle decoders_three_blocks
        (some { entries_array := [] }) (some io_handle_4096) none (some inode_inline)
    ∧ (libfsxfs_directory_read_file_io_handle decoders_three_blocks
        (some { entries_array := [] }) (some io_handle_4096) (some { id := 7 })
        (some inode_inline)).calls
      = [.directory_table_create, .directory_table_read_data [1, 0, 0, 0, 0, 128] 6] :=
  ⟨by decide, rfl, rfl,
   (libfsxfs_directory_read_file_io_handle_inline decoders_three_blocks
      { entries_array := [] } io_handle_4096 inode_inline (by decide) rfl).1
      (some { id := 7 }) none,
   ((libfsxfs_directory_read_file_io_handle_inline decoders_three_blocks
      { entries_array := [] } io_handle_4096 inode_inline (by decide) rfl).2
      (some { id := 7 })).2 rfl |>.1⟩

/-! ## The size of the block directory and when the block form is used -/

/-- C16 (as stated, refuted): with 4096-byte blocks and `dir_block_log2` = 1 the directory block
size is 8192, and the inode with two extents is not in block form; the code still creates a
block directory, of size 4096, and reads it. -/
theorem libfsxfs_directory_read_file_io_handle_block_directory_of_block_size :
    spec_directory_block_size io_handle_4096.block_size 1 = 8192
    ∧ spec_is_block_form io_handle_4096.block_size 1 inode_two_data_blocks = false
    ∧ (libfsxfs_directory_read_file_io_handle decoders_three_blocks
        (some { entries_array := [] }) (some io_handle_4096) (some { id := 7 })
        (some inode_two_data_blocks)).calls
      = [.block_directory_create 4096,
         .block_directory_read_file_io_handle (some { id := 7 }) 3526656] := by
  refine ⟨?_, ?_, ?_⟩ <;> decide

/-- C16 (amended): for every directory inode in extents format, whatever its size and the
number of its extents, `libfsxfs_directory_read_file_io_handle` uses the block form: its first
call creates a block directory of the file system block size `io_handle->block_size`, and when
that succeeds its next call reads that block directory. -/
theorem libfsxfs_directory_read_file_io_handle_block_form (d : Decoders)
    (directory : libfsxfs_directory_t) (io_handle : libfsxfs_io_handle_t)
    (file_io_handle : Option libbfio_handle_t) (inode : libfsxfs_inode_t)
    (hmode : inode.file_mode &&& 0xf000 = LIBFSXFS_FILE_TYPE_DIRECTORY)
    (hfork : inode.fork_type = LIBFSXFS_FORK_TYPE_EXTENTS) :
    (libfsxfs_directory_read_file_io_handle d (some directory) (some io_handle) file_io_handle
        (some inode)).calls.head? = some (.block_directory_create io_handle.block_size)
    ∧ (d.block_directory_create io_handle.block_size = 1 →
        ∃ file_offset : Int,
          (libfsxfs_directory_read_file_io_handle d (some directory) (some io_handle)
              file_io_handle (some inode)).calls
            = [.block_directory_create io_handle.block_size,
               .block_directory_read_file_io_handle file_io_handle file_offset])
    ∧ (∀ (size : Nat) (data_extents : List libfsxfs_extent_t),
        libfsxfs_directory_read_file_io_handle d (some directory) (some io_handle)
            file_io_handle (some { inode with size := size, data_extents := data_extents })
          = libfsxfs_directory_read_file_io_handle d (some directory) (some io_handle)
            file_io_handle (some inode)) := by
  have h1 : LIBFSXFS_FORK_TYPE_EXTENTS ≠ LIBFSXFS_FORK_TYPE_INLINE_DATA := by decide
  refine ⟨?_, fun hcreate => ⟨861 * 4096, ?_⟩, fun _ _ => ?_⟩
  · simp only [libfsxfs_directory_read_file_io_handle, hmode, hfork, if_true, ne_eq,
      h1, not_false_eq_true, not_true_eq_false, and_false, and_true, if_false,
      libfsxfs_directory_read_file_io_handle_on_error]
    split_ifs <;> rfl
  · simp only [libfsxfs_directory_read_file_io_handle, hmode, hfork, hcreate, if_true, ne_eq,
      h1, not_false_eq_true, not_true_eq_false, and_false, and_true, if_false,
      libfsxfs_directory_read_file_io_handle_on_error]
    split_ifs <;> rfl
  · simp only [libfsxfs_directory_read_file_io_handle, hmode, hfork, if_true, ne_eq,
      h1, not_false_eq_true, not_true_eq_false, and_false, and_true, if_false]

/-- C16 (amended), at concrete inputs: the inode with two extents and size 8192 is read in block
form with a block directory of 4096 bytes. -/
theorem libfsxfs_directory_read_file_io_handle_block_form_witness :
    inode_two_data_blocks.file_mode &&& 0xf000 = LIBFSXFS_FILE_TYPE_DIRECTORY
    ∧ inode_two_data_blocks.fork_type = LIBFSXFS_FORK_TYPE_EXTENTS
    ∧ (libfsxfs_directory_read_file_io_handle decoders_three_blocks
        (some { entries_array := [] }) (some io_handle_4096) (some { id := 7 })
        (some inode_two_data_blocks)).calls.head? = some (.block_directory_create 4096) :=
  ⟨by decide, rfl,
   (libfsxfs_directory_read_file_io_handle_block_form decoders_three_blocks
      { entries_array := [] } io_handle_4096 (some { id := 7 }) inode_two_data_blocks
      (by decide) rfl).1⟩

/-! ## Creating a directory -/

/-- C18: `libfsxfs_directory_initialize` returns -1 and leaves `*directory` as it is when
`*directory` is already set; starting from NULL it returns 1 or -1: when it returns 1,
`*directory` is a new directory with no entries, and when it fails, at the allocation or after
it, `*directory` is NULL. -/
theorem libfsxfs_directory_initialize_result (m : DirectoryMemory) :
    (∀ value : libfsxfs_directory_t,
       ( libfsxfs_directory_initialize m (some (some value))) = (-1, some (some value)))
    ∧ (( libfsxfs_directory_initialize m (some none)) = (1, some (some { entries_array := [] }))
        ∧ libfsxfs_directory_get_number_of_entries libcdata
            (( libfsxfs_directory_initialize m (some none)).2.getD none) = (1, some 0)
        ∧ m.memory_allocate_structure = true ∧ m.memory_set = true
        ∧ m.libcdata_array_create = 1
      ∨ ( libfsxfs_directory_initialize m (some none)) = (-1, some none)
        ∧ (m.memory_allocate_structure = false ∨ m.memory_set = false
          ∨ m.libcdata_array_create ≠ 1)) := by
  refine ⟨fun _ => rfl, ?_⟩
  by_cases h1 : m.memory_allocate_structure = true
  · by_cases h2 : m.memory_set = true
    · by_cases h3 : m.libcdata_array_create = 1
      · left
        have h : ( libfsxfs_directory_initialize m (some none))
            = (1, some (some { entries_array := [] })) := by
          simp [ libfsxfs_directory_initialize, h1, h2, h3]
        rw [h]
        exact ⟨rfl, rfl, h1, h2, h3⟩
      · right
        exact ⟨by simp [ libfsxfs_directory_initialize, h1, h2, h3], Or.inr (Or.inr h3)⟩
    · right
      have h2f : m.memory_set = false := by simpa using h2
      exact ⟨by simp [ libfsxfs_directory_initialize, h1, h2f], Or.inr (Or.inl h2f)⟩
  · right
    have h1f : m.memory_allocate_structure = false := by simpa using h1
    exact ⟨by simp [ libfsxfs_directory_initialize, h1f], Or.inl h1f⟩

/-! ## Inodes that are not directories, and directories in an unsupported format -/

/-- C19: for an inode whose file type bits `file_mode & 0xf000` are not those of a directory,
`libfsxfs_directory_read_file_io_handle` returns 1, makes no decoder call, and with that no
read, and leaves the directory as it was, whatever the fork type of the inode is. -/
theorem libfsxfs_directory_read_file_io_handle_not_a_directory (d : Decoders)
    (directory : libfsxfs_directory_t) (io_handle : libfsxfs_io_handle_t)
    (file_io_handle : Option libbfio_handle_t) (inode : libfsxfs_inode_t)
    (hmode : inode.file_mode &&& 0xf000 ≠ LIBFSXFS_FILE_TYPE_DIRECTORY) :
    ∀ fork_type : Nat,
      libfsxfs_directory_read_file_io_handle d (some directory) (some io_handle)
          file_io_handle (some { inode with fork_type := fork_type })
        = { result := 1, directory := some directory, calls := [] } := by
  intro fork_type
  simp only [libfsxfs_directory_read_file_io_handle, hmode, if_false]

/-- C19, at concrete inputs: a regular file, read into a directory that holds the entry `b`:
the result is 1 and the directory still holds `b`. -/
theorem libfsxfs_directory_read_file_io_handle_not_a_directory_witness :
    inode_regular_file.file_mode &&& 0xf000 ≠ LIBFSXFS_FILE_TYPE_DIRECTORY
    ∧ libfsxfs_directory_read_file_io_handle decoders_three_blocks
        (some { entries_array := [entry_b] }) (some io_handle_4096) (some { id := 7 })
        (some { inode_regular_file with fork_type := LIBFSXFS_FORK_TYPE_EXTENTS })
      = { result := 1, directory := some { entries_array := [entry_b] }, calls := [] } :=
  ⟨by decide,
   libfsxfs_directory_read_file_io_handle_not_a_directory decoders_three_blocks
    { entries_array := [entry_b] } io_handle_4096 (some { id := 7 }) inode_regular_file
    (by decide) LIBFSXFS_FORK_TYPE_EXTENTS⟩

/-- C20: for a directory inode whose data fork type is neither inline data nor extents,
`libfsxfs_directory_read_file_io_handle` returns -1 without a decoder call, and the entries
array of the directory is empty afterwards. -/
theorem libfsxfs_directory_read_file_io_handle_unsupported_fork_type (d : Decoders)
    (directory : libfsxfs_directory_t) (io_handle : libfsxfs_io_handle_t)
    (file_io_handle : Option libbfio_handle_t) (inode : libfsxfs_inode_t)
    (hmode : inode.file_mode &&& 0xf000 = LIBFSXFS_FILE_TYPE_DIRECTORY)
    (hinline : inode.fork_type ≠ LIBFSXFS_FORK_TYPE_INLINE_DATA)
    (hextents : inode.fork_type ≠ LIBFSXFS_FORK_TYPE_EXTENTS) :
    libfsxfs_directory_read_file_io_handle d (some directory) (some io_handle) file_io_handle
        (some inode)
      = { result := -1, directory := some { entries_array := [] }, calls := [] }
    ∧ libfsxfs_directory_get_number_of_entries libcdata
        (libfsxfs_directory_read_file_io_handle d (some directory) (some io_handle)
          file_io_handle (some inode)).directory = (1, some 0) := by
  have h : libfsxfs_directory_read_file_io_handle d (some directory) (some io_handle)
      file_io_handle (some inode)
      = { result := -1, directory := some { entries_array := [] }, calls := [] } := by
    simp only [libfsxfs_directory_read_file_io_handle, hmode, hinline, hextents, if_true,
      ne_eq, not_false_eq_true, and_self, libfsxfs_directory_read_file_io_handle_on_error,
      libcdata_array_empty]
  rw [h]
  exact ⟨rfl, rfl⟩

/-- C20, at concrete inputs: a directory inode in btree format, read into a directory that
holds the entry `b`: the result is -1, no decoder ran and no entry is left. -/
theorem libfsxfs_directory_read_file_io_handle_unsupported_fork_type_witness :
    inode_btree_directory.file_mode &&& 0xf000 = LIBFSXFS_FILE_TYPE_DIRECTORY
    ∧ inode_btree_directory.fork_type ≠ LIBFSXFS_FORK_TYPE_INLINE_DATA
    ∧ inode_btree_directory.fork_type ≠ LIBFSXFS_FORK_TYPE_EXTENTS
    ∧ libfsxfs_directory_read_file_io_handle decoders_three_blocks
        (some { entries_array := [entry_b] }) (some io_handle_4096) (some { id := 7 })
        (some inode_btree_directory)
      = { result := -1, directory := some { entries_array := [] }, calls := [] } :=
  ⟨by decide, by decide, by decide,
   (libfsxfs_directory_read_file_io_handle_unsupported_fork_type decoders_three_blocks
      { entries_array := [entry_b] } io_handle_4096 (some { id := 7 }) inode_btree_directory
      (by decide) (by decide) (by decide)).1⟩

/-! ## The first of several matching entries -/

/-- The lookup returns the entry at the first index that compares equal, when every index before
it is fetched and compared without failure. -/
theorem libfsxfs_directory_get_entry_by_utf8_name_first (A : libcdata_array_calls)
    (compare : libfsxfs_directory_entry_t → List Nat → Nat → Int)
    (directory : libfsxfs_directory_t) (string : List Nat) (length : Nat)
    (directory_entry : Option libfsxfs_directory_entry_t) (number_of_entries : Int)
    (hn : A.get_number_of_entries directory.entries_array = some number_of_entries)
    (i : Nat) (e : libfsxfs_directory_entry_t) (hi : (i : Int) < number_of_entries)
    (hget : A.get_entry_by_index directory.entries_array (i : Int) = some e)
    (heq : compare e string length = LIBUNA_COMPARE_EQUAL)
    (hfirst : ∀ j : Nat, j < i →
      ∃ e2, A.get_entry_by_index directory.entries_array (j : Int) = some e2
        ∧ compare e2 string length ≠ -1
        ∧ compare e2 string length ≠ LIBUNA_COMPARE_EQUAL) :
    libfsxfs_directory_get_entry_by_utf8_name A compare (some directory) string length
      directory_entry = (1, some e) := by
  have hne : LIBUNA_COMPARE_EQUAL ≠ -1 := by decide
  rcases libfsxfs_directory_get_entry_by_utf8_name_cases A compare directory string length
      directory_entry number_of_entries hn with
    ⟨_, hall⟩ | ⟨k, e2, _, hR, hg2, hc2, hall⟩ | ⟨k, _, _, hfail, hall⟩
  · obtain ⟨e3, h3, _, h5⟩ := hall i hi
    rw [hget] at h3; cases h3
    exact absurd heq h5
  · rcases Nat.lt_trichotomy k i with hki | hki | hki
    · obtain ⟨e3, h3, _, h5⟩ := hfirst k hki
      rw [hg2] at h3; cases h3
      exact absurd hc2 h5
    · subst hki
      rw [hget] at hg2; cases hg2
      exact hR
    · obtain ⟨e3, h3, _, h5⟩ := hall i hki
      rw [hget] at h3; cases h3
      exact absurd heq h5
  · rcases Nat.lt_trichotomy k i with hki | hki | hki
    · obtain ⟨e3, h3, h4, _⟩ := hfirst k hki
      rcases hfail with hf | ⟨e4, hf, hf2⟩
      · rw [hf] at h3; cases h3
      · rw [hf] at h3; cases h3; exact absurd hf2 h4
    · subst hki
      rcases hfail with hf | ⟨e4, hf, hf2⟩
      · rw [hf] at hget; cases hget
      · rw [hf] at hget; cases hget
        rw [heq] at hf2; exact absurd hf2 hne
    · obtain ⟨e3, h3, _, h5⟩ := hall i hki
      rw [hget] at h3; cases h3
      exact absurd heq h5

/-- C21: for both lookups by name, when the entry at index `i` compares equal and every entry
before it is fetched and compares neither equal nor failed (so that `i` is the lowest index
that matches), the lookup returns 1 with the entry at index `i`, however many later entries
compare equal too; and the result is the same for every other behaviour of the fetches and of
the comparison at the indexes after `i`, so a failure there cannot make the result -1. -/
theorem libfsxfs_directory_get_entry_by_name_lowest_index
    (lookup : libcdata_array_calls → (libfsxfs_directory_entry_t → List Nat → Nat → Int) →
      Option libfsxfs_directory_t → List Nat → Nat → Option libfsxfs_directory_entry_t →
      Int × Option libfsxfs_directory_entry_t)
    (hl : lookup = libfsxfs_directory_get_entry_by_utf8_name
      ∨ lookup = libfsxfs_directory_get_entry_by_utf16_name)
    (A : libcdata_array_calls)
    (compare : libfsxfs_directory_entry_t → List Nat → Nat → Int)
    (directory : libfsxfs_directory_t) (string : List Nat) (length : Nat)
    (directory_entry : Option libfsxfs_directory_entry_t) (number_of_entries : Int)
    (hn : A.get_number_of_entries directory.entries_array = some number_of_entries)
    (i : Nat) (e : libfsxfs_directory_entry_t) (hi : (i : Int) < number_of_entries)
    (hget : A.get_entry_by_index directory.entries_array (i : Int) = some e)
    (heq : compare e string length = LIBUNA_COMPARE_EQUAL)
    (hfirst : ∀ j : Nat, j < i →
      ∃ e2, A.get_entry_by_index directory.entries_array (j : Int) = some e2
        ∧ compare e2 string length ≠ -1
        ∧ compare e2 string length ≠ LIBUNA_COMPARE_EQUAL) :
    lookup A compare (some directory) string length directory_entry = (1, some e)
    ∧ ∀ (A2 : libcdata_array_calls)
        (compare2 : libfsxfs_directory_entry_t → List Nat → Nat → Int),
        A2.get_number_of_entries directory.entries_array = some number_of_entries →
        (∀ j : Nat, j ≤ i →
          A2.get_entry_by_index directory.entries_array (j : Int)
            = A.get_entry_by_index directory.entries_array (j : Int)) →
        (∀ (j : Nat) (e2 : libfsxfs_directory_entry_t), j ≤ i →
          A.get_entry_by_index directory.entries_array (j : Int) = some e2 →
          compare2 e2 string length = compare e2 string length) →
        lookup A2 compare2 (some directory) string length directory_entry = (1, some e) := by
  have hl2 : lookup = libfsxfs_directory_get_entry_by_utf8_name := by
    rcases hl with hl | hl
    · exact hl
    · rw [hl, libfsxfs_directory_get_entry_by_utf16_name_eq]
  subst hl2
  refine ⟨libfsxfs_directory_get_entry_by_utf8_name_first A compare directory string length
    directory_entry number_of_entries hn i e hi hget heq hfirst, ?_⟩
  intro A2 compare2 hn2 hA hC
  refine libfsxfs_directory_get_entry_by_utf8_name_first A2 compare2 directory string length
    directory_entry number_of_entries hn2 i e hi ?_ ?_ ?_
  · rw [hA i (Nat.le_refl i)]; exact hget
  · rw [hC i e (Nat.le_refl i) hget]; exact heq
  · intro j hj
    obtain ⟨e2, h2, h3, h4⟩ := hfirst j hj
    refine ⟨e2, ?_, ?_, ?_⟩
    · rw [hA j (Nat.le_of_lt hj)]; exact h2
    · rw [hC j e2 (Nat.le_of_lt hj) h2]; exact h3
    · rw [hC j e2 (Nat.le_of_lt hj) h2]; exact h4

/-- C21, at concrete inputs: the directory holds `a`, `b`, a second `b` and an entry whose
comparison fails; both lookups of `b` return 1 with the first `b`, the entry at index 1. -/
theorem libfsxfs_directory_get_entry_by_name_lowest_index_witness :
    libcdata.get_number_of_entries directory_two_b.entries_array = some 4
    ∧ libcdata.get_entry_by_index directory_two_b.entries_array ((1 : Nat) : Int)
        = some entry_b
    ∧ libcdata.get_entry_by_index directory_two_b.entries_array ((2 : Nat) : Int)
        = some entry_b_again
    ∧ compare_name entry_b [98] 1 = LIBUNA_COMPARE_EQUAL
    ∧ compare_name entry_b_again [98] 1 = LIBUNA_COMPARE_EQUAL
    ∧ compare_name entry_nameless [98] 1 = -1
    ∧ libfsxfs_directory_get_entry_by_utf8_name libcdata compare_name (some directory_two_b)
        [98] 1 none = (1, some entry_b)
    ∧ libfsxfs_directory_get_entry_by_utf16_name libcdata compare_name (some directory_two_b)
        [98] 1 none = (1, some entry_b) :=
  ⟨rfl, rfl, rfl, by decide, by decide, by decide,
   (libfsxfs_directory_get_entry_by_name_lowest_index
      libfsxfs_directory_get_entry_by_utf8_name (Or.inl rfl) libcdata compare_name
      directory_two_b [98] 1 none 4 rfl 1 entry_b (by decide) rfl (by decide)
      (fun j hj => by
        have hj0 : j = 0 := by omega
        subst hj0
        exact ⟨entry_a, rfl, by decide, by decide⟩)).1,
   (libfsxfs_directory_get_entry_by_name_lowest_index
      libfsxfs_directory_get_entry_by_utf16_name (Or.inr rfl) libcdata compare_name
      directory_two_b [98] 1 none 4 rfl 1 entry_b (by decide) rfl (by decide)
      (fun j hj => by
        have hj0 : j = 0 := by omega
        subst hj0
        exact ⟨entry_a, rfl, by decide, by decide⟩)).1⟩

/-! ## The file IO handle after a failed `open_file_object` -/

/-- C22: `open_file_object` on failure.  With a file IO handle already set the call raises
(IOError when the mode and the file object pass their checks), makes no call, so the handle is
neither freed nor replaced, and leaves the volume object as it was.  With no handle set and
the checks passed: when creating the handle fails the call raises MemoryError without calling
the library open, when the library open fails it raises IOError, and in both cases
`file_io_handle` is NULL afterwards; every failing call leaves it NULL, and a later
`open_file_object` whose handle creation and library open succeed returns None. -/
theorem pyfsxfs_volume_open_file_object_failure_handle (lib : Library) (v : pyfsxfs_volume_t)
    (file_object : PyArgument) (mode : Option (List Char)) :
    (∀ h, v.file_io_handle = some h →
      (∃ e, (pyfsxfs_volume_open_file_object lib (some v) (some (file_object, mode))).result
          = .raised e)
      ∧ (pyfsxfs_volume_open_file_object lib (some v)
          (some (file_object, mode))).pyfsxfs_volume = some v
      ∧ (pyfsxfs_volume_open_file_object lib (some v) (some (file_object, mode))).calls = []
      ∧ (mode_is_unsupported mode = false → file_object.has_attr_read = 1 →
          file_object.has_attr_seek = 1 →
          (pyfsxfs_volume_open_file_object lib (some v) (some (file_object, mode))).result
            = .raised .IOError))
    ∧ (v.file_io_handle = none →
      (mode_is_unsupported mode = false → file_object.has_attr_read = 1 →
        file_object.has_attr_seek = 1 →
        (lib.pyfsxfs_file_object_create.1 ≠ 1 →
          (pyfsxfs_volume_open_file_object lib (some v) (some (file_object, mode))).result
            = .raised .MemoryError
          ∧ ∀ c ∈ (pyfsxfs_volume_open_file_object lib (some v)
              (some (file_object, mode))).calls, c.access_flags? = none)
        ∧ (lib.pyfsxfs_file_object_create.1 = 1 →
          lib.libfsxfs_volume_open_file_io_handle v.volume lib.pyfsxfs_file_object_create.2
            LIBFSXFS_OPEN_READ ≠ 1 →
          (pyfsxfs_volume_open_file_object lib (some v) (some (file_object, mode))).result
            = .raised .IOError))
      ∧ (∀ e, (pyfsxfs_volume_open_file_object lib (some v) (some (file_object, mode))).result
            = .raised e →
          (pyfsxfs_volume_open_file_object lib (some v)
              (some (file_object, mode))).pyfsxfs_volume
            = some { volume := v.volume, file_io_handle := none }
          ∧ ∀ (later : Library) (later_object : PyArgument) (later_mode : Option (List Char))
              (created : libbfio_handle_t),
              mode_is_unsupported later_mode = false → later_object.has_attr_read = 1 →
              later_object.has_attr_seek = 1 →
              later.pyfsxfs_file_object_create = (1, some created) →
              later.libfsxfs_volume_open_file_io_handle v.volume (some created)
                LIBFSXFS_OPEN_READ = 1 →
              (pyfsxfs_volume_open_file_object later
                  (pyfsxfs_volume_open_file_object lib (some v)
                    (some (file_object, mode))).pyfsxfs_volume
                  (some (later_object, later_mode))).result = .object .None
              ∧ (pyfsxfs_volume_open_file_object later
                  (pyfsxfs_volume_open_file_object lib (some v)
                    (some (file_object, mode))).pyfsxfs_volume
                  (some (later_object, later_mode))).pyfsxfs_volume
                = some { volume := v.volume, file_io_handle := some created })) := by
  have hafter : ∀ exception calls (w : pyfsxfs_volume_t),
      (pyfsxfs_volume_open_file_object_on_error exception w calls).pyfsxfs_volume
        = some { volume := w.volume, file_io_handle := none } := by
    intro exception calls w
    unfold pyfsxfs_volume_open_file_object_on_error
    split
    · rfl
    · next hnone =>
      cases w with
      | mk volume file_io_handle =>
        simp only at hnone
        subst hnone
        rfl
  refine ⟨?_, ?_⟩
  · intro h hh
    by_cases hm : mode_is_unsupported mode = true
    · simp [pyfsxfs_volume_open_file_object, hm]
    · have hm2 : mode_is_unsupported mode = false := by simpa using hm
      by_cases hr : file_object.has_attr_read = 1
      · by_cases hs : file_object.has_attr_seek = 1
        · simp [pyfsxfs_volume_open_file_object, hm2, hr, hs, hh]
        · simp [pyfsxfs_volume_open_file_object, hm2, hr, hs]
      · simp [pyfsxfs_volume_open_file_object, hm2, hr]
  · intro hnone
    have hv : v = { volume := v.volume, file_io_handle := none } := by
      cases v with
      | mk volume file_io_handle =>
        simp only at hnone
        subst hnone
        rfl
    refine ⟨?_, ?_⟩
    · intro hm hr hs
      constructor
      · intro hcreate
        constructor
        · simp only [pyfsxfs_volume_open_file_object, hm, hr, hs, hnone, hcreate, ne_eq,
            not_true_eq_false, not_false_eq_true, if_true, if_false, Option.isSome_none,
            Bool.false_eq_true, pyfsxfs_volume_open_file_object_on_error_result]
        · intro c hc
          simp only [pyfsxfs_volume_open_file_object, hm, hr, hs, hnone, hcreate, ne_eq,
            not_true_eq_false, not_false_eq_true, if_true, if_false, Option.isSome_none,
            Bool.false_eq_true] at hc
          unfold pyfsxfs_volume_open_file_object_on_error at hc
          split at hc
          · simp only [List.mem_append, List.mem_singleton] at hc
            rcases hc with hc | hc
            · subst hc; rfl
            · subst hc; rfl
          · simp only [List.mem_singleton] at hc
            subst hc; rfl
      · intro hcreate hopen
        simp only [pyfsxfs_volume_open_file_object, hm, hr, hs, hnone, hcreate, hopen, ne_eq,
          not_true_eq_false, not_false_eq_true, if_true, if_false, Option.isSome_none,
          Bool.false_eq_true, pyfsxfs_volume_open_file_object_on_error_result]
    · intro e he
      have hvol : (pyfsxfs_volume_open_file_object lib (some v)
          (some (file_object, mode))).pyfsxfs_volume
          = some { volume := v.volume, file_io_handle := none } := by
        revert he
        simp only [pyfsxfs_volume_open_file_object]
        split_ifs
        · intro _; exact congrArg some hv
        · intro _; exact congrArg some hv
        · intro _; exact congrArg some hv
        · intro _; exact congrArg some hv
        · intro _; exact hafter _ _ _
        · intro _; exact hafter _ _ _
        · intro he; simp at he
      refine ⟨hvol, ?_⟩
      intro later later_object later_mode created hm hr hs hcreate hopen
      rw [hvol]
      simp [pyfsxfs_volume_open_file_object, hm, hr, hs, hcreate, hopen]

/-- C22, at concrete inputs: on a fresh volume the library open fails after the handle 7 was
created; the call raises IOError, the handle is freed and `file_io_handle` is NULL, and a later
call with a library that opens the volume returns None. -/
theorem pyfsxfs_volume_open_file_object_failure_handle_witness :
    fresh_volume.file_io_handle = none
    ∧ pyfsxfs_volume_open_file_object library_open_error (some fresh_volume)
        (some (seekable_file_object, none))
      = { result := .raised .IOError,
          pyfsxfs_volume := some { volume := some 1, file_io_handle := none },
          calls := [.pyfsxfs_file_object_create,
            .libfsxfs_volume_open_file_io_handle (some { id := 7 }) LIBFSXFS_OPEN_READ,
            .libbfio_handle_free { id := 7 }],
          freed_file_entries := [] }
    ∧ (pyfsxfs_volume_open_file_object library_create_error (some fresh_volume)
        (some (seekable_file_object, none))).result = .raised .MemoryError
    ∧ (pyfsxfs_volume_open_file_object library_success
        (pyfsxfs_volume_open_file_object library_open_error (some fresh_volume)
          (some (seekable_file_object, none))).pyfsxfs_volume
        (some (seekable_file_object, none))).result = .object .None :=
  ⟨rfl, by decide,
   (((pyfsxfs_volume_open_file_object_failure_handle library_create_error fresh_volume
      seekable_file_object none).2 rfl).1 rfl rfl rfl).1 (by decide) |>.1,
   ((((pyfsxfs_volume_open_file_object_failure_handle library_open_error fresh_volume
      seekable_file_object none).2 rfl).2 .IOError (by decide)).2 library_success
      seekable_file_object none { id := 7 } rfl rfl rfl rfl rfl).1⟩
